import Mathlib

/-!
Verification development for the AquaControl feature-engineering pipeline
(`data-engineering/ml-pipeline/feature_engineering.py`).

The pipeline is shallowly embedded over exact rationals: sensor values,
timestamps (in minutes) and derived features are `Rat`; a missing value
(pandas `NaN` / `NaT`) is `Option.none`.  Stateful collaborators (the
relational store, the Redis cache, the query log) are explicit record
state threaded through the orchestrator.
-/

attribute [local semireducible] Rat.add Rat.mul Rat.sub Rat.inv Rat.ofScientific

deriving instance DecidableEq for Except

namespace Aqua

/-- A stable insertion sort (equal, as a function, to the stable sorts used
by the SQL `ORDER BY` and the pandas groupers; written by structural
recursion so that concrete runs reduce inside the kernel). -/
def orderedInsert {α : Type} (le : α → α → Bool) (x : α) : List α → List α
  | [] => [x]
  | y :: ys => if le x y then x :: y :: ys else y :: orderedInsert le x ys

/-- Sort a list by `le` (stable). -/
def sortBy {α : Type} (le : α → α → Bool) (l : List α) : List α :=
  l.foldr (orderedInsert le) []

/-- Newton iteration for the integer square root (the fuel is an upper
bound on the strictly decreasing guess, so the recursion is structural). -/
def sqrtIter : Nat → Nat → Nat → Nat
  | 0, _, g => g
  | f + 1, n, g =>
    let g2 := (g + n / g) / 2
    if g2 < g then sqrtIter f n g2 else g

/-- Integer square root (floor), `natSqrt (k ^ 2) = k`. -/
def natSqrt (n : Nat) : Nat := if n ≤ 1 then n else sqrtIter n n (n / 2 + 1)

/-- Integer square root of an integer (0 on negatives, as `Int.sqrt`). -/
def intSqrt : Int → Nat
  | .ofNat n => natSqrt n
  | .negSucc _ => 0

/-- A row of `sensor_data.readings` joined with its sensor, restricted to the
fields the pipeline reads (`time`, `sensor_id`, `tank_id`, `sensor_type`,
`value`, `quality_score`; the joined device columns are never used
downstream).  `time` is minutes since an arbitrary epoch. -/
structure Reading where
  time : ℚ
  sensor_id : String
  tank_id : String
  sensor_type : String
  value : ℚ
  quality_score : ℚ
deriving DecidableEq, Repr

/-- One column of a pandas DataFrame.  `nums` is a numeric dtype column
(float/int; `none` is `NaN`), `strs` an object column, `times` a
datetime column (excluded by `select_dtypes(include=[np.number])`). -/
inductive Col where
  | nums (cells : List (Option ℚ))
  | strs (cells : List (Option String))
  | times (cells : List (Option ℚ))
deriving DecidableEq, Repr

/-- Number of cells in a column. -/
def Col.len : Col → ℕ
  | .nums cs => cs.length
  | .strs cs => cs.length
  | .times cs => cs.length

/-- A DataFrame: named columns in insertion order (positional row index). -/
structure DataFrame where
  cols : List (String × Col)
deriving DecidableEq, Repr

def DataFrame.empty : DataFrame := ⟨[]⟩

/-- Row count: length of the first column (0 for a frame with no columns). -/
def DataFrame.nrows (df : DataFrame) : ℕ :=
  match df.cols with
  | [] => 0
  | c :: _ => c.2.len

/-- pandas `DataFrame.empty`: true when either axis has length 0. -/
def DataFrame.isEmpty (df : DataFrame) : Bool :=
  df.cols.isEmpty || df.nrows == 0

/-- Replace the value at key `k` if present (keeping the column position),
otherwise append at the end — the semantics of `df[k] = v`. -/
def upsertPairs {α : Type} (l : List (String × α)) (k : String) (v : α) :
    List (String × α) :=
  if l.any (fun p => p.1 == k) then
    l.map (fun p => if p.1 == k then (k, v) else p)
  else l ++ [(k, v)]

/-- `df[k] = c` (column assignment on an orthodox DataFrame). -/
def DataFrame.set (df : DataFrame) (k : String) (c : Col) : DataFrame :=
  ⟨upsertPairs df.cols k c⟩

/-- Column lookup returning `none` when the column is absent. -/
def DataFrame.col? (df : DataFrame) (k : String) : Option Col :=
  (df.cols.find? (fun p => p.1 == k)).map (fun p => p.2)

/-! ### Elementwise float arithmetic with NaN propagation -/

/-- Unary NaN-propagating map. -/
def omap (f : ℚ → ℚ) : Option ℚ → Option ℚ
  | some x => some (f x)
  | none => none

/-- Binary NaN-propagating subtraction. -/
def osub : Option ℚ → Option ℚ → Option ℚ
  | some x, some y => some (x - y)
  | _, _ => none

/-- Binary NaN-propagating addition. -/
def oadd : Option ℚ → Option ℚ → Option ℚ
  | some x, some y => some (x + y)
  | _, _ => none

/-- Float division as used by the pipeline.  A `0` denominator yields a
non-finite float (`NaN` for `0/0`, `±inf` otherwise); the embedding
collapses every non-finite outcome to a missing value, which is all the
claims under verification observe about them. -/
def pdiv : Option ℚ → Option ℚ → Option ℚ
  | some x, some y => if y = 0 then none else some (x / y)
  | _, _ => none

/-- `series > c` on a float cell: `NaN > c` is `False`. -/
def oGt (c : ℚ) : Option ℚ → Bool
  | some x => decide (c < x)
  | none => false

/-- `series < c` on a float cell: `NaN < c` is `False`. -/
def oLt (c : ℚ) : Option ℚ → Bool
  | some x => decide (x < c)
  | none => false

/-- `np.abs(series) > c` on a float cell (`False` on `NaN`). -/
def oAbsGt (c : ℚ) : Option ℚ → Bool
  | some x => decide (c < |x|)
  | none => false

/-- `.astype(int)` of a boolean cell. -/
def b2q (b : Bool) : ℚ := if b then 1 else 0

/-! ### Rolling statistics over a time-indexed pivoted series

A pivoted series is a list of `(time, value)` pairs with strictly
increasing times.  `rolling(w)` with an offset window `w` uses the
pandas default `closed='right'`: the window at row `i` holds the values
at times in the half-open interval `(tᵢ - w, tᵢ]`, and `min_periods = 1`. -/

/-- Values inside the trailing window of width `w` minutes ending at row `i`. -/
def windowSlice (s : List (ℚ × ℚ)) (w : ℚ) (i : ℕ) : List ℚ :=
  match s.get? i with
  | none => []
  | some pi => (((s.take (i + 1)).filter (fun p => pi.1 - w < p.1)).map (fun p => p.2))

/-- Square root of a rational (integer square root of the numerator over
that of the denominator).  It agrees with the real square root exactly on
perfect squares, which is the only place any claim below evaluates a
standard deviation (a constant window has variance 0 and `sqrt 0 = 0`);
elsewhere the float square root is irrational and no claim observes its
value. -/
def ratSqrt (q : ℚ) : ℚ := Rat.divInt (intSqrt q.num) (natSqrt q.den)

/-- Rolling mean (`min_periods = 1`: defined for any non-empty window). -/
def rmean (l : List ℚ) : Option ℚ :=
  if l.isEmpty then none else some (l.sum / (l.length : ℚ))

/-- Rolling sample standard deviation (`ddof = 1`; `NaN` below 2 points). -/
def rstd (l : List ℚ) : Option ℚ :=
  if l.length < 2 then none
  else
    let m := l.sum / (l.length : ℚ)
    some (ratSqrt ((l.map (fun x => (x - m) ^ 2)).sum / ((l.length : ℚ) - 1)))

/-- Rolling minimum. -/
def rmin (l : List ℚ) : Option ℚ :=
  match l with
  | [] => none
  | x :: xs => some (xs.foldl min x)

/-- Rolling maximum. -/
def rmax (l : List ℚ) : Option ℚ :=
  match l with
  | [] => none
  | x :: xs => some (xs.foldl max x)

/-- Rolling quantile with the pandas default linear interpolation. -/
def rquantile (p : ℚ) (l : List ℚ) : Option ℚ :=
  match sortBy (fun a b => decide (a ≤ b)) l with
  | [] => none
  | x :: xs =>
    let sorted := x :: xs
    let n := l.length
    let pos := p * ((n : ℚ) - 1)
    let k := pos.floor.toNat
    let frac := pos - (pos.floor : ℚ)
    let vk := sorted.getD k x
    if k + 1 < n then some (vk + frac * (sorted.getD (k + 1) x - vk)) else some vk

/-- Apply a window statistic at every row of a pivoted series. -/
def rollingApply (f : List ℚ → Option ℚ) (w : ℚ) (s : List (ℚ × ℚ)) :
    List (Option ℚ) :=
  (List.range s.length).map (fun i => f (windowSlice s w i))

/-- `series.diff(periods = n)` (positional; NaN-propagating, NaN head). -/
def diffN (n : ℕ) (vals : List (Option ℚ)) : List (Option ℚ) :=
  (List.range vals.length).map (fun i =>
    if n ≤ i then osub (vals.getD i none) (vals.getD (i - n) none) else none)

/-- `series.shift(n)` (positional). -/
def shiftN (n : ℕ) (vals : List (Option ℚ)) : List (Option ℚ) :=
  (List.range vals.length).map (fun i =>
    if n ≤ i then vals.getD (i - n) none else none)

/-! ### Configuration and raw-data extraction -/

/-- `FeatureConfig` after `__post_init__` has run (list fields populated). -/
structure FeatureConfig where
  lookback_hours : Int
  aggregation_windows : List String
  sensor_types : List String
  include_seasonal : Bool
  include_lag_features : Bool
  max_lag_hours : Nat
deriving DecidableEq, Repr

/-- Arguments to the `FeatureConfig` dataclass constructor: the two list
fields default to `None` and are filled in by `__post_init__`. -/
structure FeatureConfigArgs where
  lookback_hours : Int := 24
  aggregation_windows : Option (List String) := none
  sensor_types : Option (List String) := none
  include_seasonal : Bool := true
  include_lag_features : Bool := true
  max_lag_hours : Nat := 6
deriving DecidableEq, Repr

/-- `FeatureConfig.__post_init__`: only replaces `None` list fields by the
defaults; it performs no validation whatsoever. -/
def FeatureConfig.post_init (a : FeatureConfigArgs) : FeatureConfig :=
  { lookback_hours := a.lookback_hours
    aggregation_windows := a.aggregation_windows.getD ["1H", "3H", "6H", "12H", "24H"]
    sensor_types := a.sensor_types.getD ["Temperature", "pH", "DissolvedOxygen", "Salinity"]
    include_seasonal := a.include_seasonal
    include_lag_features := a.include_lag_features
    max_lag_hours := a.max_lag_hours }

/-- Lower-casing of a sensor-type name (`str.lower()`), written over the
character list so that concrete runs reduce inside the kernel. -/
def lowerStr (s : String) : String := ⟨s.data.map Char.toLower⟩

/-- Whether `s` starts with `pre` (`str.startswith`), over character lists. -/
def startsWithStr (s pre : String) : Bool := pre.data.isPrefixOf s.data

/-- Read a non-empty all-digit character list as a number. -/
def digitsToNat? (l : List Char) : Option Nat :=
  if l.isEmpty then none
  else l.foldl (fun acc c =>
    acc.bind (fun n => if c.isDigit then some (10 * n + (c.toNat - 48)) else none))
    (some 0)

/-- Parse a pandas hour offset string such as `"1H"`, `"24H"` into minutes.
Only the `<digits>H` family occurs in this repository; other strings fall
back to a zero-width window. -/
def windowMinutes (s : String) : ℚ :=
  if s.data.getLastD ' ' == 'H' then
    match digitsToNat? s.data.dropLast with
    | some n => 60 * (n : ℚ)
    | none => 0
  else 0

/-- Split a character list on a separator character (`str.split`). -/
def splitChar (sep : Char) : List Char → List (List Char)
  | [] => [[]]
  | c :: rest =>
    match splitChar sep rest with
    | [] => if c == sep then [[], []] else [[c]]
    | g :: gs => if c == sep then [] :: g :: gs else (c :: g) :: gs

/-- The last `_`-separated segment of a column name
(`col.split('_')[-1]`, the window suffix). -/
def lastSegment (s : String) : String := ⟨(splitChar '_' s.data).getLastD []⟩

/-- The relational store: the `sensor_data.readings ⋈ sensors` table plus a
transient-failure model — `failing tank a b` says the raw-data query for
that tank and window raises (network/database unreachable). -/
structure DB where
  rows : List Reading
  failing : String → ℚ → ℚ → Bool

/-- Ordering used by the extraction query: `ORDER BY r.time, r.sensor_type`. -/
def readingLE (a b : Reading) : Bool :=
  decide (a.time < b.time) || (a.time == b.time && (compare a.sensor_type b.sensor_type).isLE)

/-- `extract_sensor_data`: rows of the tank inside `[start, end]`
(SQL `BETWEEN` is inclusive) with `quality_score ≥ 0.7`, ordered by
`(time, sensor_type)`; or a transient I/O failure. -/
def extract_sensor_data (db : DB) (tank : String) (a b : ℚ) :
    Except String (List Reading) :=
  if db.failing tank a b then .error "DatabaseError"
  else
    .ok (((db.rows.filter (fun r =>
      r.tank_id == tank && decide (a ≤ r.time) && decide (r.time ≤ b)
        && decide ((7 : ℚ) / 10 ≤ r.quality_score))).foldr (orderedInsert readingLE) []))

/-- `create_time_features` adds calendar/cyclical columns to the raw
readings frame, but `create_sensor_features` then builds a fresh frame
reading only `sensor_type`, `time` and `value`, so none of those columns
survive into the feature table.  The embedding therefore models it as the
identity on the fields consumed downstream. -/
def create_time_features (_cfg : FeatureConfig) (rows : List Reading) : List Reading :=
  rows

/-! ### The per-sensor statistics engine (`create_sensor_features`) -/

/-- `pivot_table(index='time', values='value', aggfunc='mean')`: sorted
unique times, each mapped to the mean of the co-timestamped values.
Groups are non-empty, so no cell is missing and the subsequent
`fillna(ffill).fillna(bfill)` is the identity. -/
def pivot_table (sd : List Reading) : List (ℚ × ℚ) :=
  ((sortBy (fun a b => decide (a ≤ b)) (sd.map (fun r => r.time))).eraseDups).map
    (fun t =>
      let g := (sd.filter (fun r => r.time == t)).map (fun r => r.value)
      (t, g.sum / (g.length : ℚ)))

/-- The feature frame under construction: pandas aligns every assigned
series to the index fixed by the first assignment (the first pivoted
sensor series). -/
structure FeaturesDF where
  index : List ℚ
  cols : List (String × List (Option ℚ))
deriving DecidableEq, Repr

def FeaturesDF.empty : FeaturesDF := ⟨[], []⟩

/-- Reindex a series (index `sIdx`, cells `vals`) to a target index:
times absent from the source become `NaN`. -/
def reindexTo (sIdx : List ℚ) (vals : List (Option ℚ)) (tgt : List ℚ) :
    List (Option ℚ) :=
  tgt.map (fun t =>
    match (sIdx.zip vals).find? (fun p => p.1 == t) with
    | some p => p.2
    | none => none)

/-- `features_df[name] = series`: an assignment to an entirely empty frame
adopts the series index; otherwise the series is aligned to the existing
index and the column is replaced in place or appended. -/
def FeaturesDF.set (fdf : FeaturesDF) (name : String) (sIdx : List ℚ)
    (vals : List (Option ℚ)) : FeaturesDF :=
  if fdf.index.isEmpty && fdf.cols.isEmpty then ⟨sIdx, [(name, vals)]⟩
  else ⟨fdf.index, upsertPairs fdf.cols name (reindexTo sIdx vals fdf.index)⟩

/-- `features_df[name]` read: raises `KeyError` when the column is absent. -/
def FeaturesDF.get (fdf : FeaturesDF) (name : String) :
    Except String (List (Option ℚ)) :=
  match fdf.cols.find? (fun p => p.1 == name) with
  | some p => .ok p.2
  | none => .error ("KeyError: " ++ name)

def FeaturesDF.hasCol (fdf : FeaturesDF) (name : String) : Bool :=
  fdf.cols.any (fun p => p.1 == name)

/-- One iteration of the `for window in self.config.aggregation_windows`
loop: the ten windowed statistics columns for one sensor. -/
def addWindowCols (name : String) (pv : List (ℚ × ℚ)) (fdf : FeaturesDF)
    (w : String) : FeaturesDF :=
  let wm := windowMinutes w
  let idx := pv.map (fun p => p.1)
  let vals := pv.map (fun p => some p.2)
  let mean := rollingApply rmean wm pv
  let std := rollingApply rstd wm pv
  let mn := rollingApply rmin wm pv
  let mx := rollingApply rmax wm pv
  let q25 := rollingApply (rquantile (1 / 4)) wm pv
  let q75 := rollingApply (rquantile (3 / 4)) wm pv
  let fdf := fdf.set (name ++ "_mean_" ++ w) idx mean
  let fdf := fdf.set (name ++ "_std_" ++ w) idx std
  let fdf := fdf.set (name ++ "_min_" ++ w) idx mn
  let fdf := fdf.set (name ++ "_max_" ++ w) idx mx
  let fdf := fdf.set (name ++ "_range_" ++ w) idx (List.zipWith osub mx mn)
  let fdf := fdf.set (name ++ "_q25_" ++ w) idx q25
  let fdf := fdf.set (name ++ "_q75_" ++ w) idx q75
  let fdf := fdf.set (name ++ "_iqr_" ++ w) idx (List.zipWith osub q75 q25)
  let fdf := fdf.set (name ++ "_trend_" ++ w) idx (List.zipWith osub vals mean)
  fdf.set (name ++ "_cv_" ++ w) idx (List.zipWith pdiv std mean)

/-- The lag-feature loop (`lag_periods = lag_hours * 12`). -/
def addLagCols (cfg : FeatureConfig) (name : String) (idx : List ℚ)
    (vals : List (Option ℚ)) (fdf : FeaturesDF) : FeaturesDF :=
  ((List.range cfg.max_lag_hours).map (fun k => k + 1)).foldl
    (fun acc h =>
      acc.set (name ++ "_lag_" ++ toString h ++ "h") idx (shiftN (12 * h) vals))
    fdf

/-- Z-scores of a pivoted series against its fixed 24-hour rolling mean
and (sample) standard deviation. -/
def zscores (pv : List (ℚ × ℚ)) : List (Option ℚ) :=
  List.zipWith pdiv
    (List.zipWith osub (pv.map (fun p => some p.2)) (rollingApply rmean 1440 pv))
    (rollingApply rstd 1440 pv)

/-- The `is_anomaly` cells: 1 when `|z| > 3`
(`NaN > 3` is `False`, so a NaN z-score flags 0). -/
def anomalyFlags (pv : List (ℚ × ℚ)) : List (Option ℚ) :=
  (zscores pv).map (fun c => some (b2q (oAbsGt 3 c)))

/-- Z-score and anomaly-flag columns. -/
def addAnomalyCols (name : String) (pv : List (ℚ × ℚ)) (fdf : FeaturesDF) :
    FeaturesDF :=
  let idx := pv.map (fun p => p.1)
  let fdf := fdf.set (name ++ "_zscore") idx (zscores pv)
  fdf.set (name ++ "_is_anomaly") idx (anomalyFlags pv)

/-- The sensor-specific risk flags.  `thermal_stratification`,
`ph_stability` and `oxygen_declining_trend` read the fixed column names
`std_3H`, `std_6H` and `trend_3H` from the frame, raising `KeyError`
when the corresponding window was not configured. -/
def sensorFlags (stype name : String) (pv : List (ℚ × ℚ)) (fdf : FeaturesDF) :
    Except String FeaturesDF :=
  let idx := pv.map (fun p => p.1)
  let vals := pv.map (fun p => some p.2)
  if stype == "Temperature" then
    match fdf.get (name ++ "_roc_1h") with
    | .error e => .error e
    | .ok roc1 =>
      let fdf := fdf.set "temp_shock_risk" fdf.index
        (roc1.map (fun c => some (b2q (oAbsGt 2 c))))
      match fdf.get (name ++ "_std_3H") with
      | .error e => .error e
      | .ok s3 =>
        .ok (fdf.set "thermal_stratification" fdf.index
          (s3.map (fun c => some (b2q (oGt (3 / 2) c)))))
  else if stype == "pH" then
    match fdf.get (name ++ "_std_6H") with
    | .error e => .error e
    | .ok s6 =>
      let fdf := fdf.set "ph_stability" fdf.index
        (s6.map (fun c => pdiv (some 1) (oadd (some 1) c)))
      let fdf := fdf.set "ph_stress_low" idx
        (vals.map (fun c => some (b2q (oLt (13 / 2) c))))
      .ok (fdf.set "ph_stress_high" idx
        (vals.map (fun c => some (b2q (oGt (17 / 2) c)))))
  else if stype == "DissolvedOxygen" then
    let fdf := fdf.set "oxygen_depletion_risk" idx
      (vals.map (fun c => some (b2q (oLt 4 c))))
    let fdf := fdf.set "oxygen_critical" idx
      (vals.map (fun c => some (b2q (oLt 2 c))))
    match fdf.get (name ++ "_trend_3H") with
    | .error e => .error e
    | .ok t3 =>
      .ok (fdf.set "oxygen_declining_trend" fdf.index
        (t3.map (fun c => some (b2q (oLt (-(1 / 2)) c)))))
  else .ok fdf

/-- The body of `for sensor_type in self.config.sensor_types`. -/
def processSensorType (cfg : FeatureConfig) (rows : List Reading)
    (fdf : FeaturesDF) (stype : String) : Except String FeaturesDF :=
  let sd := rows.filter (fun r => r.sensor_type == stype)
  if sd.isEmpty then .ok fdf
  else
    let pv := pivot_table sd
    if pv.isEmpty then .ok fdf
    else
      let name := lowerStr stype
      let idx := pv.map (fun p => p.1)
      let vals := pv.map (fun p => some p.2)
      let fdf := cfg.aggregation_windows.foldl (addWindowCols name pv) fdf
      let fdf := fdf.set (name ++ "_roc_1h") idx (diffN 12 vals)
      let fdf := fdf.set (name ++ "_roc_3h") idx (diffN 36 vals)
      let fdf := fdf.set (name ++ "_roc_6h") idx (diffN 72 vals)
      match fdf.get (name ++ "_roc_1h") with
      | .error e => .error e
      | .ok roc1 =>
        let fdf := fdf.set (name ++ "_acceleration") fdf.index (diffN 1 roc1)
        let fdf := if cfg.include_lag_features then addLagCols cfg name idx vals fdf else fdf
        let fdf := addAnomalyCols name pv fdf
        sensorFlags stype name pv fdf

/-- Sequential processing of the configured sensor types (an uncaught
exception aborts the whole call). -/
def processAll (cfg : FeatureConfig) (rows : List Reading) :
    List String → FeaturesDF → Except String FeaturesDF
  | [], fdf => .ok fdf
  | s :: rest, fdf =>
    match processSensorType cfg rows fdf s with
    | .error e => .error e
    | .ok fdf2 => processAll cfg rows rest fdf2

/-- Cross-sensor interaction features:
`temp_oxygen_ratio_{window} = temp_mean / (oxygen_mean + 1e-6)` for the
zipped `temperature_mean*` / `dissolvedoxygen_mean*` column pairs. -/
def crossSensor (cfg : FeatureConfig) (fdf : FeaturesDF) : FeaturesDF :=
  if (cfg.sensor_types.map lowerStr).contains "temperature"
      && (cfg.sensor_types.map lowerStr).contains "dissolvedoxygen" then
    let tcols := fdf.cols.filter (fun p => startsWithStr p.1 "temperature_mean")
    let ocols := fdf.cols.filter (fun p => startsWithStr p.1 "dissolvedoxygen_mean")
    (tcols.zip ocols).foldl
      (fun acc pr =>
        let w := lastSegment pr.1.1
        acc.set ("temp_oxygen_ratio_" ++ w) acc.index
          (List.zipWith (fun a b => pdiv a (oadd b (some (1 / 1000000)))) pr.1.2 pr.2.2))
      fdf
  else fdf

/-- `features_df.reset_index()`: the time index becomes a leading `time`
column (datetime dtype).  An entirely empty frame gains pandas default
`index` column (an empty int64 column) instead. -/
def resetIndex (fdf : FeaturesDF) : DataFrame :=
  if fdf.index.isEmpty && fdf.cols.isEmpty then ⟨[("index", Col.nums [])]⟩
  else
    ⟨("time", Col.times (fdf.index.map some)) ::
      fdf.cols.map (fun p => (p.1, Col.nums p.2))⟩

/-- `create_sensor_features`. -/
def create_sensor_features (cfg : FeatureConfig) (rows : List Reading) :
    Except String DataFrame :=
  match processAll cfg rows cfg.sensor_types FeaturesDF.empty with
  | .error e => .error e
  | .ok fdf => .ok (resetIndex (crossSensor cfg fdf))

/-! ### Tank-context enrichment (`create_tank_context_features`)

The categorical encodings call the Python builtin `hash` on strings.
Since Python 3.3 that hash is salted with a per-process value
(`PYTHONHASHSEED`), so it is a property of the running process, not of
the string; the embedding keeps it as an explicit parameter
`pyhash : String → Int` standing for the hash function of one process. -/

/-- A row of `sensor_data.tanks` as the enricher reads it.  `location` and
`optimal_parameters` are JSON columns; a `none` models a SQL `NULL` or
empty string (falsy in the `if tank_data[...]` guards), a `some` the
parsed object in key order. -/
structure TankMeta where
  capacity_value : ℚ
  capacity_unit : String
  tank_type : String
  location : Option (List (String × String))
  optimal_parameters : Option (List (String × ℚ))
deriving DecidableEq, Repr

/-- `hash(tank_type) % 1000` (Python `%` on a positive modulus yields a
value in `[0, 1000)`, as does `Int.emod`). -/
def tank_type_encoded (pyhash : String → Int) (t : String) : Int :=
  pyhash t % 1000

/-- `hash(location.get(key, '')) % 100`. -/
def location_encoded (pyhash : String → Int) (loc : List (String × String))
    (key : String) : Int :=
  pyhash ((loc.find? (fun p => p.1 == key)).map (fun p => p.2) |>.getD "") % 100

/-- `np.abs(df[param] - optimal_value)` cellwise. -/
def devCells (ov : ℚ) (cs : List (Option ℚ)) : List (Option ℚ) :=
  cs.map (omap (fun v => |v - ov|))

/-- `(np.abs(df[param] - optimal_value) < optimal_value * 0.1).astype(int)`
cellwise (a NaN comparison is `False`, hence 0). -/
def withinCells (ov : ℚ) (cs : List (Option ℚ)) : List (Option ℚ) :=
  cs.map (fun c =>
    match c with
    | some v => some (b2q (decide (|v - ov| < ov * (1 / 10))))
    | none => some 0)

/-- The deviation-from-optimal step for a single optimal-parameter entry:
when `param` names an existing column, add `{param}_deviation` and
`{param}_within_optimal`.  pandas raises a `TypeError` when the named
column is not numeric (it never is in the observed flow). -/
def optimalStep (df : DataFrame) (pv : String × ℚ) : Except String DataFrame :=
  match df.col? pv.1 with
  | none => .ok df
  | some (Col.nums cells) =>
    .ok ((df.set (pv.1 ++ "_deviation") (Col.nums (devCells pv.2 cells))).set
      (pv.1 ++ "_within_optimal") (Col.nums (withinCells pv.2 cells)))
  | some _ => .error "TypeError"

/-- `create_tank_context_features`: metadata lookup, pass-through when the
tank is unknown, otherwise capacity, hash encodings and the
deviation-from-optimal loop. -/
def create_tank_context_features (pyhash : String → Int)
    (tanks : String → Option TankMeta) (tank : String) (df : DataFrame) :
    Except String DataFrame :=
  match tanks tank with
  | none => .ok df
  | some meta =>
    let n := df.nrows
    let df := df.set "tank_capacity"
      (Col.nums (List.replicate n (some meta.capacity_value)))
    let df := df.set "tank_type_encoded"
      (Col.nums (List.replicate n (some ((tank_type_encoded pyhash meta.tank_type : ℤ) : ℚ))))
    let loc := meta.location.getD []
    let df := df.set "building_encoded"
      (Col.nums (List.replicate n (some ((location_encoded pyhash loc "building" : ℤ) : ℚ))))
    let df := df.set "room_encoded"
      (Col.nums (List.replicate n (some ((location_encoded pyhash loc "room" : ℤ) : ℚ))))
    match meta.optimal_parameters with
    | none => .ok df
    | some opt => opt.foldlM optimalStep df

/-! ### Imputation and metadata tagging -/

/-- `SimpleImputer(strategy='median')` statistic for one column: the
median of the present values (mean of the two middle order statistics
for an even count). -/
def medianOf (l : List ℚ) : ℚ :=
  let sorted := sortBy (fun a b => decide (a ≤ b)) l
  let n := l.length
  if n % 2 == 1 then sorted.getD (n / 2) 0
  else (sorted.getD (n / 2 - 1) 0 + sorted.getD (n / 2) 0) / 2

/-- Impute one numeric column.  A column with no present value is dropped
by `SimpleImputer.transform`, which makes the subsequent width-mismatched
DataFrame assignment raise — modelled as `none`. -/
def imputeCol (cells : List (Option ℚ)) : Option (List (Option ℚ)) :=
  let present := cells.filterMap id
  if present.isEmpty then none
  else some (cells.map (fun c => some (c.getD (medianOf present))))

/-- Impute every numeric column of a column list, leaving object and
datetime columns alone; fails when some numeric column is entirely
missing. -/
def imputeCols : List (String × Col) → Option (List (String × Col))
  | [] => some []
  | (n, Col.nums cells) :: rest =>
    match imputeCol cells, imputeCols rest with
    | some l, some r => some ((n, Col.nums l) :: r)
    | _, _ => none
  | p :: rest => (imputeCols rest).map (fun r => p :: r)

/-- The shared imputation pass over all numeric columns
(`select_dtypes(include=[np.number])`).  sklearn raises when the numeric
selection has no column or no row, and the all-NaN column drop raises in
the assignment; both are modelled as `none`. -/
def imputeDF (df : DataFrame) : Option DataFrame :=
  if (df.cols.filter (fun p => match p.2 with | Col.nums _ => true | _ => false)).isEmpty
  then none
  else (imputeCols df.cols).map (fun l => ⟨l⟩)

/-- The final metadata tagging: `tank_id`, `feature_timestamp` (the target
time, a datetime column) and `feature_version = "v1.0"`. -/
def addMeta (df : DataFrame) (tank : String) (t : ℚ) : DataFrame :=
  let n := df.nrows
  ((df.set "tank_id" (Col.strs (List.replicate n (some tank)))).set
    "feature_timestamp" (Col.times (List.replicate n (some t)))).set
    "feature_version" (Col.strs (List.replicate n (some "v1.0")))

/-! ### The orchestrator (`engineer_features`) with explicit state -/

/-- `DataFrame.to_json()`.  The serialized payload is modelled by the
table value itself: the embedding treats the pandas JSON encode/decode
pair as a faithful round-trip (an external-library contract; the
orchestrator never inspects the payload). -/
def DataFrame.to_json (df : DataFrame) : DataFrame := df

/-- `pd.read_json` of a cached payload (inverse of `to_json` above). -/
def read_json (payload : DataFrame) : DataFrame := payload

/-- The world the orchestrator touches: relational store, tank metadata,
the Redis cache (key, payload, absolute expiry), the current wall-clock
time (minutes) and a log of issued raw-data queries. -/
structure SysState where
  db : DB
  tanks : String → Option TankMeta
  redis : List (String × DataFrame × ℚ)
  now : ℚ
  queryLog : List (String × ℚ × ℚ)

/-- `redis.get`: a key is visible while `now` is before its expiry. -/
def redisGet (st : SysState) (k : String) : Option DataFrame :=
  match st.redis.find? (fun e => e.1 == k) with
  | some e => if st.now < e.2.2 then some e.2.1 else none
  | none => none

/-- `redis.setex(key, ttl, value)` (ttl in seconds in the source; the
expiry is absolute here, in the same clock as `SysState.now`). -/
def redisSetex (st : SysState) (k : String) (ttl : ℚ) (v : DataFrame) :
    SysState :=
  { st with redis := upsertPairs st.redis k (v, st.now + ttl) }

/-- `f"features:{tank_id}:{target_time.isoformat()}"`. -/
def cacheKey (tank : String) (t : ℚ) : String :=
  "features:" ++ tank ++ ":" ++ toString t

/-- `engineer_features(tank_id, target_time)`: cache probe, raw-data
extraction over the lookback window, the three feature stages,
median imputation, metadata tagging and the 3600-second cache write.
Exceptions propagate to the caller. -/
def engineer_features (pyhash : String → Int) (cfg : FeatureConfig)
    (st : SysState) (tank : String) (t : ℚ) :
    Except String DataFrame × SysState :=
  match redisGet st (cacheKey tank t) with
  | some cached => (.ok (read_json cached), st)
  | none =>
    let start := t - 60 * (cfg.lookback_hours : ℚ)
    let st1 : SysState := { st with queryLog := st.queryLog ++ [(tank, start, t)] }
    match extract_sensor_data st.db tank start t with
    | .error e => (.error e, st1)
    | .ok raw =>
      if raw.isEmpty then (.ok DataFrame.empty, st1)
      else
        match create_sensor_features cfg (create_time_features cfg raw) with
        | .error e => (.error e, st1)
        | .ok sens =>
          match create_tank_context_features pyhash st1.tanks tank sens with
          | .error e => (.error e, st1)
          | .ok ctx =>
            match imputeDF ctx with
            | none => (.error "ValueError: imputer", st1)
            | some imp =>
              let final := addMeta imp tank t
              (.ok final, redisSetex st1 (cacheKey tank t) 3600 final.to_json)

/-! ### Batch mode (`batch_engineer_features`) -/

/-- `pd.concat([a, b], ignore_index=True)`: columns of `a` first, extended
with the rows of `b` (missing columns padded with missing values), then
the columns present only in `b`, padded at the top. -/
def dfConcat2 (a b : DataFrame) : DataFrame :=
  let padA := fun (c : Col) =>
    match c with
    | Col.nums cs => Col.nums (cs ++ List.replicate b.nrows none)
    | Col.strs cs => Col.strs (cs ++ List.replicate b.nrows none)
    | Col.times cs => Col.times (cs ++ List.replicate b.nrows none)
  let merged := a.cols.map (fun p =>
    match b.col? p.1 with
    | some (Col.nums cs2) =>
      match p.2 with
      | Col.nums cs1 => (p.1, Col.nums (cs1 ++ cs2))
      | c => (p.1, padA c)
    | some (Col.strs cs2) =>
      match p.2 with
      | Col.strs cs1 => (p.1, Col.strs (cs1 ++ cs2))
      | c => (p.1, padA c)
    | some (Col.times cs2) =>
      match p.2 with
      | Col.times cs1 => (p.1, Col.times (cs1 ++ cs2))
      | c => (p.1, padA c)
    | none => (p.1, padA p.2)
  )
  let bOnly := (b.cols.filter (fun p => (a.col? p.1).isNone)).map (fun p =>
    match p.2 with
    | Col.nums cs => (p.1, Col.nums (List.replicate a.nrows none ++ cs))
    | Col.strs cs => (p.1, Col.strs (List.replicate a.nrows none ++ cs))
    | Col.times cs => (p.1, Col.times (List.replicate a.nrows none ++ cs)))
  ⟨merged ++ bOnly⟩

/-- `pd.concat(frames, ignore_index=True)` for a non-empty list. -/
def pdConcat : List DataFrame → DataFrame
  | [] => DataFrame.empty
  | x :: xs => xs.foldl dfConcat2 x

/-- The target times visited by `while current_time <= end_time`, stepping
by `interval` minutes.  The source loops forever on a non-positive
interval; the claims only concern the terminating, positive case. -/
def timePoints (start endT interval : ℚ) : List ℚ :=
  if interval ≤ 0 ∨ endT < start then []
  else
    (List.range (((endT - start) / interval).floor.toNat + 1)).map
      (fun i => start + interval * (i : ℚ))

/-- The `(target_time, tank_id)` work units in visit order (times outer,
tanks inner). -/
def unitList (tanks : List String) (a b iv : ℚ) : List (ℚ × String) :=
  (timePoints a b iv).flatMap (fun t => tanks.map (fun tk => (t, tk)))

/-- The batch loop body: `try` each unit, append non-empty successes to
`all_features`, swallow and skip failures. -/
def batchUnits (pyhash : String → Int) (cfg : FeatureConfig) :
    SysState → List (ℚ × String) → List DataFrame → List DataFrame × SysState
  | st, [], acc => (acc, st)
  | st, u :: rest, acc =>
    match engineer_features pyhash cfg st u.2 u.1 with
    | (.ok df, st2) =>
      batchUnits pyhash cfg st2 rest (if df.isEmpty then acc else acc ++ [df])
    | (.error _, st2) => batchUnits pyhash cfg st2 rest acc

/-- `batch_engineer_features(tank_ids, start_time, end_time, interval_hours)`. -/
def batch_engineer_features (pyhash : String → Int) (cfg : FeatureConfig)
    (st : SysState) (tankIds : List String) (a b : ℚ) (ivHours : ℚ) :
    DataFrame × SysState :=
  let r := batchUnits pyhash cfg st (unitList tankIds a b (60 * ivHours)) []
  (if r.1.isEmpty then DataFrame.empty else pdConcat r.1, r.2)

/-! ### Construction (`AquacultureFeatureEngineer.__init__`) -/

structure DbConfig where
  host : String
  port : Nat
  database : String
  user : String
  password : String
deriving DecidableEq, Repr

structure RedisConfig where
  host : String
  port : Nat
  password : Option String
deriving DecidableEq, Repr

/-- The engineer object: connection parameters and the feature config.
The SQLAlchemy engine and the Redis client are created lazily (no I/O at
construction) and the scaler objects are never applied in the observed
flow, so the object state reduces to its configuration. -/
structure AquacultureFeatureEngineer where
  db_config : DbConfig
  redis_config : RedisConfig
  config : FeatureConfig
deriving DecidableEq, Repr

/-- `AquacultureFeatureEngineer.__init__`: stores the three configurations
verbatim.  It contains no validation of the feature config. -/
def AquacultureFeatureEngineer.init (dbc : DbConfig) (rc : RedisConfig)
    (fc : FeatureConfig) : AquacultureFeatureEngineer :=
  ⟨dbc, rc, fc⟩

/-! ### Observation helpers and concrete fixtures -/

/-- The named column of a successful result (`none` on failure/absence). -/
def dfColE (r : Except String DataFrame) (n : String) : Option Col :=
  match r with
  | .ok df => df.col? n
  | .error _ => none

/-- One numeric cell of a successful result. -/
def dfCellE (r : Except String DataFrame) (n : String) (i : ℕ) :
    Option (Option ℚ) :=
  match dfColE r n with
  | some (Col.nums cs) => cs.get? i
  | _ => none

/-- No numeric cell of the frame is missing. -/
def noMissingNums (df : DataFrame) : Bool :=
  df.cols.all (fun p =>
    match p.2 with
    | Col.nums cells => cells.all (fun c => c.isSome)
    | _ => true)

/-- `noMissingNums` lifted over the outcome (an aborted call returns no
frame at all, so there is nothing to check). -/
def resultNoMissing (r : Except String DataFrame) : Bool :=
  match r with
  | .ok df => noMissingNums df
  | .error _ => true

/-- The `db_config` of the example driver in `__main__`. -/
def example_db_config : DbConfig :=
  ⟨"localhost", 5432, "aquacontrol_timeseries", "aquacontrol", "AquaControl123!"⟩

/-- The `redis_config` of the example driver in `__main__`. -/
def example_redis_config : RedisConfig :=
  ⟨"localhost", 6379, some "AquaControl123!"⟩

/-- A 13-sample constant Temperature series (20.0 at 5-minute spacing). -/
def rows13 : List Reading :=
  (List.range 13).map (fun i =>
    { time := 5 * i, sensor_id := "S1", tank_id := "T1",
      sensor_type := "Temperature", value := 20, quality_score := 1 })

/-- The 5-sample constant Temperature series named by the specification. -/
def rows5 : List Reading :=
  (List.range 5).map (fun i =>
    { time := 5 * i, sensor_id := "S1", tank_id := "T1",
      sensor_type := "Temperature", value := 20, quality_score := 1 })

/-- A Temperature-only configuration whose windows include the `"1H"` of
the example and the `"3H"` the Temperature risk flags hard-code. -/
def cfg6 : FeatureConfig :=
  { lookback_hours := 24, aggregation_windows := ["1H", "3H"],
    sensor_types := ["Temperature"], include_seasonal := true,
    include_lag_features := false, max_lag_hours := 6 }

/-- 73 Temperature readings at 90-minute spacing (21.0 at the first
sample, 20.0 afterwards): the shortest series on which every derived
numeric column — `roc_6h` needs 73 samples — has a present value, so the
imputation pass succeeds. -/
def rowsW : List Reading :=
  (List.range 73).map (fun i =>
    { time := 90 * i, sensor_id := "S1", tank_id := "T1",
      sensor_type := "Temperature", value := if i == 0 then 21 else 20,
      quality_score := 1 })

/-- A configuration covering the `rowsW` series. -/
def cfgW : FeatureConfig :=
  { lookback_hours := 120, aggregation_windows := ["3H"],
    sensor_types := ["Temperature"], include_seasonal := true,
    include_lag_features := false, max_lag_hours := 6 }

/-- World state holding the `rowsW` table, no tank metadata, an empty
cache and a reliable database. -/
def stW : SysState :=
  { db := { rows := rowsW, failing := fun _ _ _ => false },
    tanks := fun _ => none, redis := [], now := 0, queryLog := [] }

/-- World state with an empty readings table. -/
def stEmpty : SysState :=
  { db := { rows := [], failing := fun _ _ _ => false },
    tanks := fun _ => none, redis := [], now := 0, queryLog := [] }

/-- Metadata of the C7 example tank: optimal temperature 22.0. -/
def meta7 : TankMeta :=
  { capacity_value := 1000, capacity_unit := "liters", tank_type := "standard",
    location := none, optimal_parameters := some [("temperature", 22)] }

/-- Metadata store exposing only the C7 example tank. -/
def tanks7 : String → Option TankMeta :=
  fun t => if t == "T1" then some meta7 else none

/-- A one-row frame whose `temperature` column holds 24.0. -/
def df7 : DataFrame := ⟨[("temperature", Col.nums [some 24])]⟩

/-! ### C5, C8, C9: construction, hash stability, metadata pass-through -/

/-- C5: the claim says a malformed configuration (empty `sensor_types`,
non-positive `lookback_hours`) fails fast at construction.  The code has
no such check: `__post_init__` only replaces `None` fields, and
`__init__` stores the config verbatim (connections are lazy, so nothing
else can fail either).  Constructing with `lookback_hours = 0` and
`sensor_types = []` succeeds and keeps the malformed values. -/
theorem init_accepts_malformed_config :
    (AquacultureFeatureEngineer.init example_db_config example_redis_config
        (FeatureConfig.post_init
          { lookback_hours := 0, sensor_types := some [],
            aggregation_windows := some ["1H"] })).config =
      { lookback_hours := 0, aggregation_windows := ["1H"], sensor_types := [],
        include_seasonal := true, include_lag_features := true,
        max_lag_hours := 6 } := by
  rfl

/-- C8: the categorical encodings are computed with the Python builtin
`hash`, which is salted per process; the encoded value is a function of
the process hash function, not of the string alone — two processes can
encode the same `tank_type` (and the same whole tank) differently. -/
theorem hash_encoding_not_process_stable :
    ∃ h1 h2 : String → Int,
      tank_type_encoded h1 "standard" ≠ tank_type_encoded h2 "standard" ∧
      dfColE (create_tank_context_features h1 tanks7 "T1" df7) "tank_type_encoded" ≠
        dfColE (create_tank_context_features h2 tanks7 "T1" df7) "tank_type_encoded" :=
  ⟨fun _ => 1, fun _ => 2, by decide, by decide⟩

/-- C9: when the tank-metadata query finds nothing, the enricher returns
its input frame unchanged and raises nothing. -/
theorem tank_context_missing_metadata (h : String → Int)
    (tanks : String → Option TankMeta) (tank : String) (df : DataFrame)
    (hmeta : tanks tank = none) :
    create_tank_context_features h tanks tank df = .ok df := by
  unfold create_tank_context_features
  rw [hmeta]

/-- C9 witness: a concrete unknown tank passes a concrete frame through. -/
theorem tank_context_missing_metadata_witness :
    create_tank_context_features (fun _ => 1) (fun _ => none) "T9" df7 = .ok df7 :=
  tank_context_missing_metadata (fun _ => 1) (fun _ => none) "T9" df7 rfl

/-! ### C2: empty raw-data window -/

/-- C2: on a cache miss, when the quality-filtered raw-data query returns
no readings, `engineer_features` returns an empty frame without raising;
the only state change is the logged query. -/
theorem engineer_features_no_data (h : String → Int) (cfg : FeatureConfig)
    (st : SysState) (tank : String) (t : ℚ)
    (hmiss : redisGet st (cacheKey tank t) = none)
    (hraw : extract_sensor_data st.db tank (t - 60 * (cfg.lookback_hours : ℚ)) t = .ok []) :
    engineer_features h cfg st tank t =
      (.ok DataFrame.empty,
       { st with queryLog :=
          st.queryLog ++ [(tank, t - 60 * (cfg.lookback_hours : ℚ), t)] }) := by
  unfold engineer_features
  rw [hmiss]
  simp [hraw]

/-- C2 witness: an empty readings table yields the empty frame. -/
theorem engineer_features_no_data_witness :
    engineer_features (fun _ => 0) cfgW stEmpty "T1" 6480 =
      (.ok DataFrame.empty,
       { stEmpty with queryLog := [("T1", (6480 : ℚ) - 60 * ((120 : ℤ) : ℚ), 6480)] }) :=
  engineer_features_no_data (fun _ => 0) cfgW stEmpty "T1" 6480 rfl (by decide)

/-! ### C4: no missing numeric values after imputation -/

theorem mem_upsertPairs {α : Type} {l : List (String × α)} {k : String}
    {v : α} {p : String × α} (h : p ∈ upsertPairs l k v) :
    p ∈ l ∨ p = (k, v) := by
  unfold upsertPairs at h
  split at h
  · obtain ⟨q, hq, hmap⟩ := List.mem_map.1 h
    by_cases hk : q.1 == k
    · right
      rw [if_pos hk] at hmap
      exact hmap.symm
    · left
      rw [if_neg hk] at hmap
      exact hmap ▸ hq
  · rcases List.mem_append.1 h with h2 | h2
    · exact Or.inl h2
    · exact Or.inr (List.mem_singleton.1 h2)

theorem imputeCol_all_some {cells l : List (Option ℚ)}
    (h : imputeCol cells = some l) : l.all (fun c => c.isSome) = true := by
  simp only [imputeCol] at h
  split at h
  · exact absurd h (by simp)
  · injection h with h2
    subst h2
    simp [List.all_eq_true]

theorem imputeCols_no_missing {cols l : List (String × Col)}
    (h : imputeCols cols = some l) :
    l.all (fun p =>
      match p.2 with
      | Col.nums cells => cells.all (fun c => c.isSome)
      | _ => true) = true := by
  induction cols generalizing l with
  | nil =>
    unfold imputeCols at h
    injection h with h2
    subst h2
    rfl
  | cons p rest ih =>
    obtain ⟨n, c⟩ := p
    cases c with
    | nums cells =>
      unfold imputeCols at h
      cases hc : imputeCol cells with
      | none => rw [hc] at h; exact absurd h (by simp)
      | some cl =>
        cases hr : imputeCols rest with
        | none => rw [hc, hr] at h; exact absurd h (by simp)
        | some r =>
          rw [hc, hr] at h
          injection h with h2
          subst h2
          simp only [List.all_cons, Bool.and_eq_true]
          exact ⟨imputeCol_all_some hc, ih hr⟩
    | strs cells =>
      unfold imputeCols at h
      cases hr : imputeCols rest with
      | none => rw [hr] at h; exact absurd h (by simp)
      | some r =>
        rw [hr] at h
        injection h with h2
        subst h2
        simp only [List.all_cons, Bool.and_eq_true]
        exact ⟨trivial, ih hr⟩
    | times cells =>
      unfold imputeCols at h
      cases hr : imputeCols rest with
      | none => rw [hr] at h; exact absurd h (by simp)
      | some r =>
        rw [hr] at h
        injection h with h2
        subst h2
        simp only [List.all_cons, Bool.and_eq_true]
        exact ⟨trivial, ih hr⟩

theorem noMissingNums_set (df : DataFrame) (k : String) (c : Col)
    (hdf : noMissingNums df = true)
    (hc : (match c with
           | Col.nums cells => cells.all (fun x => x.isSome)
           | _ => true) = true) :
    noMissingNums (df.set k c) = true := by
  unfold noMissingNums at hdf ⊢
  rw [List.all_eq_true] at hdf ⊢
  intro p hp
  rcases mem_upsertPairs hp with h2 | h2
  · exact hdf p h2
  · subst h2
    exact hc

/-- C4: whatever `engineer_features` returns on a cache miss contains no
missing numeric cell: the shared median-imputation pass replaces every
remaining `NaN` (and the call aborts instead of returning when a numeric
column has no value to take a median of); the metadata columns added
afterwards are non-numeric. -/
theorem engineer_features_imputed_no_missing (h : String → Int)
    (cfg : FeatureConfig) (st : SysState) (tank : String) (t : ℚ)
    (hmiss : redisGet st (cacheKey tank t) = none) :
    resultNoMissing (engineer_features h cfg st tank t).1 = true := by
  unfold engineer_features
  rw [hmiss]
  cases hx : extract_sensor_data st.db tank (t - 60 * (cfg.lookback_hours : ℚ)) t with
  | error e => simp [hx, resultNoMissing]
  | ok raw =>
    cases raw with
    | nil => simp [hx, resultNoMissing, noMissingNums, DataFrame.empty]
    | cons r rs =>
      simp only [hx, List.isEmpty_cons, Bool.false_eq_true, if_false]
      cases hs : create_sensor_features cfg (create_time_features cfg (r :: rs)) with
      | error e => simp [hs, resultNoMissing]
      | ok sens =>
        cases hc : create_tank_context_features h st.tanks tank sens with
        | error e => simp [hs, hc, resultNoMissing]
        | ok ctx =>
          cases hi : imputeDF ctx with
          | none => simp [hs, hc, hi, resultNoMissing]
          | some imp =>
            simp only [hs, hc, hi, resultNoMissing]
            unfold imputeDF at hi
            split at hi
            · exact absurd hi (by simp)
            · cases hl : imputeCols ctx.cols with
              | none => rw [hl] at hi; exact absurd hi (by simp)
              | some l =>
                rw [hl] at hi
                injection hi with h2
                subst h2
                have hbase : noMissingNums ⟨l⟩ = true := imputeCols_no_missing hl
                unfold addMeta
                apply noMissingNums_set
                apply noMissingNums_set
                apply noMissingNums_set
                · exact hbase
                · rfl
                · rfl
                · rfl

/-- C4 witness: the 73-sample fixture run is imputed with no missing cell. -/
theorem engineer_features_imputed_no_missing_witness :
    resultNoMissing (engineer_features (fun _ => 0) cfgW stW "T1" 6480).1 = true :=
  engineer_features_imputed_no_missing (fun _ => 0) cfgW stW "T1" 6480 rfl

/-! ### C6: constant-series rolling statistics -/

theorem ratSqrt_zero : ratSqrt 0 = 0 := by decide

theorem pdiv_none_right (a : Option ℚ) : pdiv a none = none := by
  cases a <;> rfl

theorem pdiv_some_zero (a : Option ℚ) : pdiv a (some 0) = none := by
  cases a <;> simp [pdiv]

theorem rstd_short {l : List ℚ} (h : l.length < 2) : rstd l = none := by
  unfold rstd
  rw [if_pos h]

theorem rmean_const {l : List ℚ} {c : ℚ} (h : ∀ x ∈ l, x = c)
    (hne : l ≠ []) : rmean l = some c := by
  unfold rmean
  rw [if_neg (by simpa [List.isEmpty_iff] using hne)]
  have hlen : (l.length : ℚ) ≠ 0 := by
    have := List.length_pos.2 hne
    exact_mod_cast Nat.pos_iff_ne_zero.1 this
  rw [List.sum_eq_card_nsmul l c h, nsmul_eq_mul, mul_div_cancel_left₀ c hlen]

theorem rstd_const {l : List ℚ} {c : ℚ} (h : ∀ x ∈ l, x = c)
    (hlen : 2 ≤ l.length) : rstd l = some 0 := by
  unfold rstd
  rw [if_neg (by omega)]
  have hm : l.sum / (l.length : ℚ) = c := by
    have hlen0 : (l.length : ℚ) ≠ 0 := by
      have : 0 < l.length := by omega
      exact_mod_cast Nat.pos_iff_ne_zero.1 this
    rw [List.sum_eq_card_nsmul l c h, nsmul_eq_mul, mul_div_cancel_left₀ c hlen0]
  have hsq : (l.map (fun x => (x - l.sum / (l.length : ℚ)) ^ 2)).sum = 0 := by
    apply List.sum_eq_zero
    intro y hy
    obtain ⟨x, hx, rfl⟩ := List.mem_map.1 hy
    rw [h x hx, hm, sub_self]
    exact zero_pow (by norm_num)
  simp only [hsq, zero_div, ratSqrt_zero]

theorem foldl_min_const {l : List ℚ} {c : ℚ} (h : ∀ x ∈ l, x = c) :
    l.foldl min c = c := by
  induction l with
  | nil => rfl
  | cons x xs ih =>
    rw [List.foldl_cons, h x (by simp), min_self]
    exact ih (fun y hy => h y (by simp [hy]))

theorem foldl_max_const {l : List ℚ} {c : ℚ} (h : ∀ x ∈ l, x = c) :
    l.foldl max c = c := by
  induction l with
  | nil => rfl
  | cons x xs ih =>
    rw [List.foldl_cons, h x (by simp), max_self]
    exact ih (fun y hy => h y (by simp [hy]))

theorem rmin_const {l : List ℚ} {c : ℚ} (h : ∀ x ∈ l, x = c)
    (hne : l ≠ []) : rmin l = some c := by
  cases l with
  | nil => exact absurd rfl hne
  | cons x xs =>
    have hx := h x (by simp)
    subst hx
    show some (xs.foldl min x) = some x
    rw [foldl_min_const (fun y hy => h y (by simp [hy]))]

theorem rmax_const {l : List ℚ} {c : ℚ} (h : ∀ x ∈ l, x = c)
    (hne : l ≠ []) : rmax l = some c := by
  cases l with
  | nil => exact absurd rfl hne
  | cons x xs =>
    have hx := h x (by simp)
    subst hx
    show some (xs.foldl max x) = some x
    rw [foldl_max_const (fun y hy => h y (by simp [hy]))]

theorem windowSlice_const {s : List (ℚ × ℚ)} {c w : ℚ} {i : ℕ}
    (h : ∀ p ∈ s, p.2 = c) : ∀ x ∈ windowSlice s w i, x = c := by
  intro x hx
  unfold windowSlice at hx
  cases hg : s.get? i with
  | none => rw [hg] at hx; simp at hx
  | some pi =>
    rw [hg] at hx
    obtain ⟨p, hp, rfl⟩ := List.mem_map.1 hx
    exact h p (List.take_subset _ _ (List.mem_filter.1 hp).1)

theorem rollingApply_get? (f : List ℚ → Option ℚ) (w : ℚ)
    (s : List (ℚ × ℚ)) {j : ℕ} (hj : j < s.length) :
    (rollingApply f w s).get? j = some (f (windowSlice s w j)) := by
  unfold rollingApply
  rw [List.get?_map, List.get?_range hj]
  rfl

theorem zscores_const_none {s : List (ℚ × ℚ)} {c : ℚ}
    (h : ∀ p ∈ s, p.2 = c) {j : ℕ} (hj : j < s.length) :
    (zscores s).get? j = some none := by
  unfold zscores
  rw [List.get?_zipWith', List.get?_zipWith', List.get?_map,
      rollingApply_get? rmean 1440 s hj, rollingApply_get? rstd 1440 s hj,
      List.get?_eq_get hj]
  simp only [Option.map_some', Option.some_bind]
  congr 1
  by_cases hl : (windowSlice s 1440 j).length < 2
  · rw [rstd_short hl, pdiv_none_right]
  · rw [rstd_const (windowSlice_const h) (by omega), pdiv_some_zero]

theorem anomalyFlags_const {s : List (ℚ × ℚ)} {c : ℚ}
    (h : ∀ p ∈ s, p.2 = c) {j : ℕ} (hj : j < s.length) :
    (anomalyFlags s).get? j = some (some 0) := by
  unfold anomalyFlags
  rw [List.get?_map, zscores_const_none h hj]
  rfl

/-- C6 counterexample: the specification instantiates its constant-series
example with the 5-sample series `[20.0, 20.0, 20.0, 20.0, 20.0]` and
asserts `mean_1H` at sample index 11 equals 20.0; the resulting
`temperature_mean_1H` column has only 5 cells, so sample index 11 does
not exist (and `roc_1h`, `diff(periods=12)`, is NaN at every sample). -/
theorem constant_example_has_no_sample_11 :
    dfColE (create_sensor_features cfg6 rows5) "temperature_mean_1H" =
      some (Col.nums (List.replicate 5 (some 20))) ∧
    dfCellE (create_sensor_features cfg6 rows5) "temperature_mean_1H" 11 = none ∧
    dfColE (create_sensor_features cfg6 rows5) "temperature_roc_1h" =
      some (Col.nums (List.replicate 5 none)) := by
  refine ⟨by decide, by decide, by decide⟩

/-- C6 (amended): over any constant-value pivoted series, every rolling
window with at least 2 points has std 0 and range 0, and cv 0 when the
constant is nonzero (`0/0` is NaN for a constant-zero series); the
`is_anomaly` flag is 0 at every sample.  For the 13-sample constant
Temperature series 20.0 at 5-minute spacing (windows `1H` and `3H`, the
latter required by the hard-coded `thermal_stratification` column),
`mean_1H` at sample index 11 is 20.0, `std_1H` there is 0.0,
`temp_shock_risk` is 0 at every sample, and `roc_1h` is NaN up to sample
index 11 and 0 at sample index 12. -/
theorem constant_series_rolling_stats :
    (∀ (c : ℚ) (s : List (ℚ × ℚ)) (w : ℚ) (i : ℕ),
        (∀ p ∈ s, p.2 = c) → 2 ≤ (windowSlice s w i).length →
        rstd (windowSlice s w i) = some 0 ∧
        pdiv (rstd (windowSlice s w i)) (rmean (windowSlice s w i)) =
          (if c = 0 then none else some 0) ∧
        osub (rmax (windowSlice s w i)) (rmin (windowSlice s w i)) = some 0) ∧
    (∀ (c : ℚ) (s : List (ℚ × ℚ)) (j : ℕ),
        (∀ p ∈ s, p.2 = c) → j < s.length →
        (anomalyFlags s).get? j = some (some 0)) ∧
    (dfCellE (create_sensor_features cfg6 rows13) "temperature_mean_1H" 11 =
        some (some 20) ∧
     dfCellE (create_sensor_features cfg6 rows13) "temperature_std_1H" 11 =
        some (some 0) ∧
     dfColE (create_sensor_features cfg6 rows13) "temp_shock_risk" =
        some (Col.nums (List.replicate 13 (some 0))) ∧
     dfColE (create_sensor_features cfg6 rows13) "temperature_roc_1h" =
        some (Col.nums (List.replicate 12 none ++ [some 0]))) := by
  refine ⟨?_, ?_, by decide, by decide, by decide, by decide⟩
  · intro c s w i hconst hlen
    have hmem := windowSlice_const (w := w) (i := i) hconst
    have hne : windowSlice s w i ≠ [] := by
      intro he
      rw [he] at hlen
      simp at hlen
    refine ⟨rstd_const hmem hlen, ?_, ?_⟩
    · rw [rstd_const hmem hlen, rmean_const hmem hne]
      by_cases hc : c = 0 <;> simp [pdiv, hc, zero_div]
    · rw [rmax_const hmem hne, rmin_const hmem hne]
      simp [osub]
  · intro c s j hconst hj
    exact anomalyFlags_const hconst hj

/-- C6 witness: the general statements instantiated on a concrete
3-sample constant series. -/
theorem constant_series_rolling_stats_witness :
    rstd (windowSlice [((0 : ℚ), (20 : ℚ)), (5, 20), (10, 20)] 60 2) = some 0 ∧
    (anomalyFlags [((0 : ℚ), (20 : ℚ)), (5, 20), (10, 20)]).get? 1 =
      some (some 0) :=
  ⟨(constant_series_rolling_stats.1 20 [(0, 20), (5, 20), (10, 20)] 60 2
      (by decide) (by decide)).1,
   constant_series_rolling_stats.2.1 20 [(0, 20), (5, 20), (10, 20)] 1
      (by decide) (by decide)⟩

/-! ### C1: cache round-trip -/

theorem find?_upsertPairs_self {α : Type} (l : List (String × α)) (k : String)
    (v : α) :
    (upsertPairs l k v).find? (fun p => p.1 == k) = some (k, v) := by
  unfold upsertPairs
  split
  · rename_i hany
    induction l with
    | nil => simp at hany
    | cons p rest ih =>
      by_cases hp : (p.1 == k) = true
      · have hk : p.1 = k := by simpa using hp
        simp [List.find?_cons, hk]
      · have hpf : (p.1 == k) = false := by simpa using hp
        have hrest : (rest.any fun q => q.1 == k) = true := by
          simpa [List.any_cons, hpf] using hany
        simp only [List.map_cons, List.find?_cons, hpf, Bool.false_eq_true, if_false]
        exact ih hrest
  · rename_i hany
    have hl : l.find? (fun p => p.1 == k) = none := by
      rw [List.find?_eq_none]
      intro p hp hpk
      exact hany (List.any_eq_true.2 ⟨p, hp, hpk⟩)
    rw [List.find?_append, hl]
    simp [List.find?_cons]

theorem redisGet_setex_now (st : SysState) (k : String) (ttl : ℚ)
    (v : DataFrame) (τ : ℚ) :
    redisGet { redisSetex st k ttl v with now := τ } k =
      (if τ < st.now + ttl then some v else none) := by
  unfold redisGet redisSetex
  simp only
  rw [find?_upsertPairs_self]

/-- C1: a feature table computed and stored by `engineer_features` (cache
miss, non-empty raw window, successful pipeline) is returned unchanged by
a second call with the same tank and target time made before the
3600-second TTL expires, and that second call leaves the state — in
particular the raw-data query log — untouched. -/
theorem cached_features_roundtrip (h : String → Int) (cfg : FeatureConfig)
    (st : SysState) (tank : String) (t τ : ℚ)
    (hmiss : redisGet st (cacheKey tank t) = none)
    (hne : extract_sensor_data st.db tank (t - 60 * (cfg.lookback_hours : ℚ)) t ≠ .ok [])
    (hok : (engineer_features h cfg st tank t).1.isOk = true)
    (hfresh : τ < st.now + 3600) :
    engineer_features h cfg
        { (engineer_features h cfg st tank t).2 with now := τ } tank t =
      ((engineer_features h cfg st tank t).1,
       { (engineer_features h cfg st tank t).2 with now := τ }) := by
  cases hx : extract_sensor_data st.db tank (t - 60 * (cfg.lookback_hours : ℚ)) t with
  | error e =>
    have h1 : (engineer_features h cfg st tank t).1 = .error e := by
      unfold engineer_features
      rw [hmiss]
      simp [hx]
    rw [h1] at hok
    simp [Except.isOk, Except.toBool] at hok
  | ok raw =>
    cases raw with
    | nil => exact absurd hx hne
    | cons r rs =>
      cases hs : create_sensor_features cfg (create_time_features cfg (r :: rs)) with
      | error e =>
        have h1 : (engineer_features h cfg st tank t).1 = .error e := by
          unfold engineer_features
          rw [hmiss]
          simp [hx, hs]
        rw [h1] at hok
        simp [Except.isOk, Except.toBool] at hok
      | ok sens =>
        cases hc : create_tank_context_features h st.tanks tank sens with
        | error e =>
          have h1 : (engineer_features h cfg st tank t).1 = .error e := by
            unfold engineer_features
            rw [hmiss]
            simp [hx, hs, hc]
          rw [h1] at hok
          simp [Except.isOk, Except.toBool] at hok
        | ok ctx =>
          cases hi : imputeDF ctx with
          | none =>
            have h1 : (engineer_features h cfg st tank t).1 = .error "ValueError: imputer" := by
              unfold engineer_features
              rw [hmiss]
              simp [hx, hs, hc, hi]
            rw [h1] at hok
            simp [Except.isOk, Except.toBool] at hok
          | some imp =>
            have hfirst : engineer_features h cfg st tank t =
                (.ok (addMeta imp tank t),
                 redisSetex
                   { st with queryLog :=
                      st.queryLog ++ [(tank, t - 60 * (cfg.lookback_hours : ℚ), t)] }
                   (cacheKey tank t) 3600 (addMeta imp tank t)) := by
              unfold engineer_features
              rw [hmiss]
              simp [hx, hs, hc, hi, DataFrame.to_json]
            rw [hfirst]
            have hget : redisGet
                { redisSetex
                    { st with queryLog :=
                       st.queryLog ++ [(tank, t - 60 * (cfg.lookback_hours : ℚ), t)] }
                    (cacheKey tank t) 3600 (addMeta imp tank t) with now := τ }
                (cacheKey tank t) = some (addMeta imp tank t) := by
              rw [redisGet_setex_now]
              exact if_pos hfresh
            unfold engineer_features
            rw [hget]
            rfl

/-- C1 witness: on the 73-sample fixture, a second call one minute later
returns the stored table with no further raw-data query. -/
theorem cached_features_roundtrip_witness :
    engineer_features (fun _ => 0) cfgW
        { (engineer_features (fun _ => 0) cfgW stW "T1" 6480).2 with now := 1 } "T1" 6480 =
      ((engineer_features (fun _ => 0) cfgW stW "T1" 6480).1,
       { (engineer_features (fun _ => 0) cfgW stW "T1" 6480).2 with now := 1 }) :=
  cached_features_roundtrip (fun _ => 0) cfgW stW "T1" 6480 1 rfl (by decide)
    (by decide) (by decide)

/-! ### C3: batch isolation of per-unit failures -/

/-- Run `engineer_features` for every `(target_time, tank_id)` unit in
order, threading the state and recording each raw outcome. -/
def runUnits (pyhash : String → Int) (cfg : FeatureConfig) :
    SysState → List (ℚ × String) → List (Except String DataFrame) × SysState
  | st, [] => ([], st)
  | st, u :: rest =>
    let r := engineer_features pyhash cfg st u.2 u.1
    let k := runUnits pyhash cfg r.2 rest
    (r.1 :: k.1, k.2)

/-- The non-empty tables among the successful outcomes, in order. -/
def successes (rs : List (Except String DataFrame)) : List DataFrame :=
  rs.filterMap (fun r =>
    match r with
    | .ok df => if df.isEmpty then none else some df
    | .error _ => none)

theorem batchUnits_eq_successes (pyhash : String → Int) (cfg : FeatureConfig)
    (units : List (ℚ × String)) (st : SysState) (acc : List DataFrame) :
    batchUnits pyhash cfg st units acc =
      (acc ++ successes (runUnits pyhash cfg st units).1,
       (runUnits pyhash cfg st units).2) := by
  induction units generalizing st acc with
  | nil => simp [batchUnits, runUnits, successes]
  | cons u rest ih =>
    unfold batchUnits runUnits
    cases hr : engineer_features pyhash cfg st u.2 u.1 with
    | mk res st2 =>
      cases res with
      | ok df =>
        by_cases hdf : df.isEmpty = true
        · simp [hdf, ih, successes, List.filterMap_cons]
        · have hdf2 : df.isEmpty = false := by simpa using hdf
          simp [hdf2, ih, successes, List.filterMap_cons]
      | error e =>
        simp [ih, successes, List.filterMap_cons]

/-- C3: the batch entry point catches every per-unit failure and
continues; its output is exactly the concatenation of the non-empty
results of the successful `(time, tank)` units visited in order
(`interval_hours` outer, tanks inner), and the empty frame when no unit
produced a non-empty result.  The final state is that of running the
units sequentially. -/
theorem batch_collects_exactly_successes (pyhash : String → Int)
    (cfg : FeatureConfig) (st : SysState) (tankIds : List String)
    (a b ivHours : ℚ) :
    batch_engineer_features pyhash cfg st tankIds a b ivHours =
      (if (successes (runUnits pyhash cfg st (unitList tankIds a b (60 * ivHours))).1).isEmpty
       then DataFrame.empty
       else pdConcat (successes (runUnits pyhash cfg st (unitList tankIds a b (60 * ivHours))).1),
       (runUnits pyhash cfg st (unitList tankIds a b (60 * ivHours))).2) := by
  unfold batch_engineer_features
  rw [batchUnits_eq_successes]
  simp

/-! ### C7: deviation-from-optimal enrichment -/

/-- The named column exists as a numeric column. -/
def getNums (df : DataFrame) (n : String) : Option (List (Option ℚ)) :=
  match df.col? n with
  | some (Col.nums cs) => some cs
  | _ => none

/-- The named column is numeric or absent (so the optimal-parameter loop
cannot raise a `TypeError` on it). -/
def numericIfPresent (df : DataFrame) (n : String) : Bool :=
  match df.col? n with
  | some (Col.nums _) => true
  | none => true
  | some _ => false

/-- Freshness of the observed parameter name against the rest of the
optimal-parameter map and the four scalar context columns: no other
entry may write over `param` or over the two columns derived from it. -/
def contextFresh (param : String) (opt : List (String × ℚ)) : Prop :=
  (opt.map Prod.fst).Nodup ∧
  param ∉ (["tank_capacity", "tank_type_encoded", "building_encoded",
            "room_encoded"] : List String) ∧
  ∀ q ∈ opt.map Prod.fst,
    param ≠ q ++ "_deviation" ∧ param ≠ q ++ "_within_optimal" ∧
    (q ≠ param →
      q ++ "_deviation" ≠ param ++ "_deviation" ∧
      q ++ "_within_optimal" ≠ param ++ "_within_optimal" ∧
      q ++ "_deviation" ≠ param ++ "_within_optimal" ∧
      q ++ "_within_optimal" ≠ param ++ "_deviation")

instance (param : String) (opt : List (String × ℚ)) :
    Decidable (contextFresh param opt) := by
  unfold contextFresh
  infer_instance

theorem append_right_ne (a : String) {b c : String} (h : b ≠ c) :
    a ++ b ≠ a ++ c := by
  intro he
  apply h
  have hd := congrArg String.data he
  rw [String.data_append, String.data_append] at hd
  exact String.ext (List.append_cancel_left hd)

theorem find?_map_upsert {α : Type} (rest : List (String × α))
    (k n : String) (v : α) (h : n ≠ k) :
    List.find? (fun p => p.1 == n)
        (rest.map (fun p => if p.1 == k then (k, v) else p)) =
      List.find? (fun p => p.1 == n) rest := by
  have hkn : (k == n) = false := by
    simp only [beq_eq_false_iff_ne, ne_eq]
    exact fun e => h e.symm
  induction rest with
  | nil => rfl
  | cons p rest ih =>
    by_cases hp : (p.1 == k) = true
    · have hk : p.1 = k := by simpa using hp
      have hpn : (p.1 == n) = false := by rw [hk]; exact hkn
      simp only [List.map_cons, List.find?_cons, hp, if_true, hkn, hpn]
      exact ih
    · have hpf : (p.1 == k) = false := by simpa using hp
      simp only [List.map_cons, List.find?_cons, hpf, Bool.false_eq_true,
        if_false]
      cases hpn : (p.1 == n) with
      | true => rfl
      | false => exact ih

theorem find?_upsertPairs_ne {α : Type} (l : List (String × α)) (k : String)
    (v : α) {n : String} (h : n ≠ k) :
    (upsertPairs l k v).find? (fun p => p.1 == n) =
      l.find? (fun p => p.1 == n) := by
  have hkn : (k == n) = false := by
    simp only [beq_eq_false_iff_ne, ne_eq]
    exact fun e => h e.symm
  unfold upsertPairs
  split
  · exact find?_map_upsert l k n v h
  · rw [List.find?_append]
    cases hl : l.find? (fun p => p.1 == n) with
    | some p => rfl
    | none => simp [List.find?_cons, hkn]

theorem col?_set_self (df : DataFrame) (k : String) (c : Col) :
    (df.set k c).col? k = some c := by
  unfold DataFrame.col? DataFrame.set
  rw [find?_upsertPairs_self]
  rfl

theorem col?_set_ne (df : DataFrame) (k : String) (c : Col) {n : String}
    (h : n ≠ k) : (df.set k c).col? n = df.col? n := by
  unfold DataFrame.col? DataFrame.set
  rw [find?_upsertPairs_ne _ _ _ h]

theorem numericIfPresent_set_nums (df : DataFrame) (k : String)
    (cs : List (Option ℚ)) (n : String)
    (h : numericIfPresent df n = true) :
    numericIfPresent (df.set k (Col.nums cs)) n = true := by
  by_cases hn : n = k
  · subst hn
    unfold numericIfPresent
    rw [col?_set_self]
  · unfold numericIfPresent
    rw [col?_set_ne _ _ _ hn]
    exact h

theorem getNums_set_ne (df : DataFrame) (k : String) (c : Col) {n : String}
    (h : n ≠ k) : getNums (df.set k c) n = getNums df n := by
  unfold getNums
  rw [col?_set_ne _ _ _ h]

theorem optimalStep_preserves (df : DataFrame) (q : String) (ov : ℚ)
    (hq : numericIfPresent df q = true) :
    ∃ df2, optimalStep df (q, ov) = .ok df2 ∧
      (∀ n, n ≠ q ++ "_deviation" → n ≠ q ++ "_within_optimal" →
        df2.col? n = df.col? n) ∧
      (∀ n, numericIfPresent df n = true → numericIfPresent df2 n = true) := by
  unfold optimalStep
  simp only
  cases hc : df.col? q with
  | none => exact ⟨df, rfl, fun n _ _ => rfl, fun n hn => hn⟩
  | some col =>
    cases col with
    | nums cs =>
      refine ⟨_, rfl, ?_, ?_⟩
      · intro n h1 h2
        rw [col?_set_ne _ _ _ h2, col?_set_ne _ _ _ h1]
      · intro n hn
        exact numericIfPresent_set_nums _ _ _ _
          (numericIfPresent_set_nums _ _ _ _ hn)
    | strs cs =>
      unfold numericIfPresent at hq
      rw [hc] at hq
      simp at hq
    | times cs =>
      unfold numericIfPresent at hq
      rw [hc] at hq
      simp at hq

theorem foldlM_optimalStep_preserves (l : List (String × ℚ))
    (df : DataFrame)
    (hnum : ∀ q ∈ l.map Prod.fst, numericIfPresent df q = true) :
    ∃ df2, l.foldlM optimalStep df = .ok df2 ∧
      (∀ n, (∀ q ∈ l.map Prod.fst,
          n ≠ q ++ "_deviation" ∧ n ≠ q ++ "_within_optimal") →
        df2.col? n = df.col? n) ∧
      (∀ n, numericIfPresent df n = true → numericIfPresent df2 n = true) := by
  induction l generalizing df with
  | nil => exact ⟨df, rfl, fun n _ => rfl, fun n hn => hn⟩
  | cons qv rest ih =>
    obtain ⟨q, ov⟩ := qv
    obtain ⟨df1, hstep, hpres1, hnum1⟩ :=
      optimalStep_preserves df q ov (hnum q (by simp))
    obtain ⟨df2, hfold, hpres2, hnum2⟩ :=
      ih df1 (fun q2 hq2 => hnum1 q2 (hnum q2 (by simp [hq2])))
    refine ⟨df2, ?_, ?_, fun n hn => hnum2 n (hnum1 n hn)⟩
    · rw [List.foldlM_cons, hstep]
      exact hfold
    · intro n hn
      rw [hpres2 n (fun q2 hq2 => hn q2 (by simp [hq2])),
          hpres1 n (hn q (by simp)).1 (hn q (by simp)).2]

theorem optimal_loop_spec (l : List (String × ℚ)) (df : DataFrame)
    (param : String) (ov : ℚ) (cs : List (Option ℚ))
    (hmem : (param, ov) ∈ l)
    (hnodup : (l.map Prod.fst).Nodup)
    (hfresh : ∀ q ∈ l.map Prod.fst,
      param ≠ q ++ "_deviation" ∧ param ≠ q ++ "_within_optimal" ∧
      (q ≠ param →
        q ++ "_deviation" ≠ param ++ "_deviation" ∧
        q ++ "_within_optimal" ≠ param ++ "_within_optimal" ∧
        q ++ "_deviation" ≠ param ++ "_within_optimal" ∧
        q ++ "_within_optimal" ≠ param ++ "_deviation"))
    (hnum : ∀ q ∈ l.map Prod.fst, numericIfPresent df q = true)
    (hcol : getNums df param = some cs) :
    ∃ df2, l.foldlM optimalStep df = .ok df2 ∧
      getNums df2 (param ++ "_deviation") = some (devCells ov cs) ∧
      getNums df2 (param ++ "_within_optimal") = some (withinCells ov cs) := by
  induction l generalizing df with
  | nil => simp at hmem
  | cons qv rest ih =>
    obtain ⟨q, ov2⟩ := qv
    rcases List.mem_cons.1 hmem with heq | hmem2
    · have h1 : param = q := congrArg Prod.fst heq
      have h2 : ov = ov2 := congrArg Prod.snd heq
      subst h1
      subst h2
      have hdevne : param ++ "_deviation" ≠ param ++ "_within_optimal" :=
        append_right_ne param (by decide)
      have hstep : optimalStep df (param, ov) =
          .ok ((df.set (param ++ "_deviation")
                  (Col.nums (devCells ov cs))).set
                (param ++ "_within_optimal")
                (Col.nums (withinCells ov cs))) := by
        unfold optimalStep
        simp only
        unfold getNums at hcol
        cases hc : df.col? param with
        | none => rw [hc] at hcol; exact absurd hcol (by simp)
        | some col =>
          cases col with
          | nums cs2 =>
            rw [hc] at hcol
            injection hcol with hcs
            subst hcs
            rfl
          | strs cs2 => rw [hc] at hcol; exact absurd hcol (by simp)
          | times cs2 => rw [hc] at hcol; exact absurd hcol (by simp)
      have hparam_notin : param ∉ rest.map Prod.fst := by
        have := hnodup
        simp only [List.map_cons, List.nodup_cons] at this
        exact this.1
      set df1 := (df.set (param ++ "_deviation")
          (Col.nums (devCells ov cs))).set
        (param ++ "_within_optimal") (Col.nums (withinCells ov cs)) with hdf1
      obtain ⟨df2, hfold, hpres, _⟩ :=
        foldlM_optimalStep_preserves rest df1
          (fun q2 hq2 =>
            numericIfPresent_set_nums _ _ _ _
              (numericIfPresent_set_nums _ _ _ _
                (hnum q2 (by simp [hq2]))))
      have hside1 : ∀ q2 ∈ List.map Prod.fst rest,
          param ++ "_deviation" ≠ q2 ++ "_deviation" ∧
          param ++ "_deviation" ≠ q2 ++ "_within_optimal" := by
        intro q2 hq2
        have hq2ne : q2 ≠ param := fun he => hparam_notin (he ▸ hq2)
        obtain ⟨_, _, hd⟩ := hfresh q2 (by simp [hq2])
        obtain ⟨d1, _, _, d4⟩ := hd hq2ne
        exact ⟨fun e => d1 e.symm, fun e => d4 e.symm⟩
      have hside2 : ∀ q2 ∈ List.map Prod.fst rest,
          param ++ "_within_optimal" ≠ q2 ++ "_deviation" ∧
          param ++ "_within_optimal" ≠ q2 ++ "_within_optimal" := by
        intro q2 hq2
        have hq2ne : q2 ≠ param := fun he => hparam_notin (he ▸ hq2)
        obtain ⟨_, _, hd⟩ := hfresh q2 (by simp [hq2])
        obtain ⟨_, d2, d3, _⟩ := hd hq2ne
        exact ⟨fun e => d3 e.symm, fun e => d2 e.symm⟩
      refine ⟨df2, ?_, ?_, ?_⟩
      · rw [List.foldlM_cons, hstep]
        exact hfold
      · unfold getNums
        rw [hpres _ hside1, hdf1, col?_set_ne _ _ _ hdevne, col?_set_self]
      · unfold getNums
        rw [hpres _ hside2, hdf1, col?_set_self]
    · have hqne : q ≠ param := by
        intro he
        subst he
        have : q ∈ rest.map Prod.fst :=
          List.mem_map.2 ⟨(q, ov), hmem2, rfl⟩
        simp only [List.map_cons, List.nodup_cons] at hnodup
        exact hnodup.1 this
      obtain ⟨df1, hstep, hpres1, hnum1⟩ :=
        optimalStep_preserves df q ov2 (hnum q (by simp))
      obtain ⟨hf1, hf2, _⟩ := hfresh q (by simp)
      have hcol1 : getNums df1 param = some cs := by
        unfold getNums
        rw [hpres1 param hf1 hf2]
        exact hcol
      obtain ⟨df2, hfold, hg1, hg2⟩ :=
        ih df1 hmem2
          (by simp only [List.map_cons, List.nodup_cons] at hnodup
              exact hnodup.2)
          (fun q2 hq2 => hfresh q2 (by simp [hq2]))
          (fun q2 hq2 => hnum1 q2 (hnum q2 (by simp [hq2])))
          hcol1
      refine ⟨df2, ?_, hg1, hg2⟩
      rw [List.foldlM_cons, hstep]
      exact hfold

/-- C7 counterexample: with optimal temperature 22.0 and an actual
`temperature` column value 24.0, the enricher computes
`temperature_within_optimal = 1` — the deviation 2.0 is strictly below
the 10 percent band 2.2, while the claim asserts the flag is 0 "since
2.0 ≥ 2.2". -/
theorem within_optimal_spec_example_flags_one :
    dfColE (create_tank_context_features (fun _ => 0) tanks7 "T1" df7)
        "temperature_within_optimal" = some (Col.nums [some 1]) ∧
    (some (Col.nums [some (1 : ℚ)]) : Option Col) ≠ some (Col.nums [some 0]) :=
  ⟨by decide, by decide⟩

/-- C7 (amended): for every key of the tank's optimal-parameter map that
names an existing (numeric) feature column — with no name collisions
against the other keys or the scalar context columns — the enricher adds
`{param}_deviation = |value - optimal|` and `{param}_within_optimal = 1`
exactly when the deviation is strictly below 10 percent of the optimal
value; in particular with optimal temperature 22.0 and a temperature
value of 24.0, `temperature_deviation = 2.0` and
`temperature_within_optimal = 1` (since 2.0 < 2.2). -/
theorem tank_context_within_optimal :
    (∀ (h : String → Int) (tanks : String → Option TankMeta) (tank : String)
        (meta : TankMeta) (opt : List (String × ℚ)) (df : DataFrame)
        (param : String) (ov : ℚ) (cs : List (Option ℚ)),
      tanks tank = some meta →
      meta.optimal_parameters = some opt →
      (param, ov) ∈ opt →
      contextFresh param opt →
      (∀ q ∈ opt.map Prod.fst, numericIfPresent df q = true) →
      getNums df param = some cs →
      ∃ res, create_tank_context_features h tanks tank df = .ok res ∧
        getNums res (param ++ "_deviation") = some (devCells ov cs) ∧
        getNums res (param ++ "_within_optimal") = some (withinCells ov cs)) ∧
    (dfColE (create_tank_context_features (fun _ => 0) tanks7 "T1" df7)
        "temperature_deviation" = some (Col.nums [some 2]) ∧
     dfColE (create_tank_context_features (fun _ => 0) tanks7 "T1" df7)
        "temperature_within_optimal" = some (Col.nums [some 1])) := by
  refine ⟨?_, by decide, by decide⟩
  intro h tanks tank meta opt df param ov cs hmeta hopt hmem hfresh hnum hcol
  obtain ⟨hnodup, hscalars, hfr⟩ := hfresh
  have hs1 : param ≠ "tank_capacity" := by simp at hscalars; exact hscalars.1
  have hs2 : param ≠ "tank_type_encoded" := by simp at hscalars; exact hscalars.2.1
  have hs3 : param ≠ "building_encoded" := by simp at hscalars; exact hscalars.2.2.1
  have hs4 : param ≠ "room_encoded" := by simp at hscalars; exact hscalars.2.2.2
  unfold create_tank_context_features
  rw [hmeta]
  simp only [hopt]
  apply optimal_loop_spec _ _ _ _ _ hmem hnodup hfr
  · intro q hq
    exact numericIfPresent_set_nums _ _ _ _
      (numericIfPresent_set_nums _ _ _ _
        (numericIfPresent_set_nums _ _ _ _
          (numericIfPresent_set_nums _ _ _ _ (hnum q hq))))
  · rw [getNums_set_ne _ _ _ hs4, getNums_set_ne _ _ _ hs3,
        getNums_set_ne _ _ _ hs2, getNums_set_ne _ _ _ hs1]
    exact hcol

/-- C7 witness: the general statement instantiated on the example tank
(optimal temperature 22.0, actual 24.0). -/
theorem tank_context_within_optimal_witness :
    ∃ res, create_tank_context_features (fun _ => 0) tanks7 "T1" df7 = .ok res ∧
      getNums res ("temperature" ++ "_deviation") =
        some (devCells 22 [some 24]) ∧
      getNums res ("temperature" ++ "_within_optimal") =
        some (withinCells 22 [some 24]) :=
  tank_context_within_optimal.1 (fun _ => 0) tanks7 "T1" meta7
    [("temperature", 22)] df7 "temperature" 22 [some 24]
    (by decide) rfl (by decide) (by decide) (by decide) (by decide)

/-! ### C10: risk flags hard-code the 3H/6H window columns -/

/-- Whether some reading of the given sensor type is present. -/
def sensorActive (rows : List Reading) (stype : String) : Bool :=
  rows.any (fun r => r.sensor_type == stype)

theorem hasCol_eq_isSome (fdf : FeaturesDF) (n : String) :
    fdf.hasCol n = (fdf.cols.find? (fun p => p.1 == n)).isSome := by
  unfold FeaturesDF.hasCol
  by_cases h : ∃ x ∈ fdf.cols, (x.1 == n) = true
  · rw [List.any_eq_true.2 h, List.find?_isSome.2 h]
  · have h1 : fdf.cols.any (fun p => p.1 == n) = false := by
      rw [← Bool.not_eq_true, List.any_eq_true]
      exact h
    have h2 : (fdf.cols.find? (fun p => p.1 == n)).isSome = false := by
      rw [← Bool.not_eq_true, List.find?_isSome]
      exact h
    rw [h1, h2]

theorem hasCol_set_self (fdf : FeaturesDF) (k : String) (sIdx : List ℚ)
    (vals : List (Option ℚ)) : (fdf.set k sIdx vals).hasCol k = true := by
  unfold FeaturesDF.set
  split
  · unfold FeaturesDF.hasCol
    simp
  · rw [hasCol_eq_isSome]
    simp only
    rw [find?_upsertPairs_self]
    rfl

theorem hasCol_set_ne (fdf : FeaturesDF) (k : String) (sIdx : List ℚ)
    (vals : List (Option ℚ)) {n : String} (hn : n ≠ k) :
    (fdf.set k sIdx vals).hasCol n = fdf.hasCol n := by
  unfold FeaturesDF.set
  split
  · rename_i hsplit
    have hc : fdf.cols = [] := by
      rw [Bool.and_eq_true] at hsplit
      exact List.isEmpty_iff.1 hsplit.2
    have hkn : (k == n) = false := by
      simp only [beq_eq_false_iff_ne, ne_eq]
      exact fun e => hn e.symm
    unfold FeaturesDF.hasCol
    rw [hc]
    simp [hkn]
  · rw [hasCol_eq_isSome, hasCol_eq_isSome]
    simp only
    rw [find?_upsertPairs_ne _ _ _ hn]

theorem get_error_of_not_hasCol (fdf : FeaturesDF) (n : String)
    (h : fdf.hasCol n = false) :
    fdf.get n = .error ("KeyError: " ++ n) := by
  rw [hasCol_eq_isSome] at h
  unfold FeaturesDF.get
  cases hf : fdf.cols.find? (fun p => p.1 == n) with
  | some p => rw [hf] at h; simp at h
  | none => rfl

theorem get_ok_of_hasCol (fdf : FeaturesDF) (n : String)
    (h : fdf.hasCol n = true) : ∃ v, fdf.get n = .ok v := by
  rw [hasCol_eq_isSome] at h
  unfold FeaturesDF.get
  cases hf : fdf.cols.find? (fun p => p.1 == n) with
  | some p => exact ⟨p.2, rfl⟩
  | none => rw [hf] at h; simp at h

theorem append_ne_target (p t : String) (i : ℕ) (c d : Char)
    (hc : p.data.get? i = some c) (hd : t.data.get? i = some d)
    (hne : c ≠ d) (u : String) : p ++ u ≠ t := by
  intro he
  obtain ⟨hlt, _⟩ := List.get?_eq_some.1 hc
  have h2 : (p ++ u).data.get? i = some c := by
    rw [String.data_append, List.get?_append hlt]
    exact hc
  rw [he, hd] at h2
  injection h2 with h3
  exact hne h3.symm

theorem append_left_cancel_str {a b c : String} (h : a ++ b = a ++ c) :
    b = c := by
  have hd := congrArg String.data h
  rw [String.data_append, String.data_append] at hd
  exact String.ext (List.append_cancel_left hd)

theorem orderedInsert_ne_nil {α : Type} (le : α → α → Bool) (x : α)
    (l : List α) : orderedInsert le x l ≠ [] := by
  cases l with
  | nil => simp [orderedInsert]
  | cons y ys =>
    unfold orderedInsert
    split <;> simp

theorem sortBy_ne_nil {α : Type} (le : α → α → Bool) {l : List α}
    (h : l ≠ []) : sortBy le l ≠ [] := by
  cases l with
  | nil => exact absurd rfl h
  | cons x xs => exact orderedInsert_ne_nil le x _

theorem eraseDups_loop_ne_nil {l acc : List ℚ} (h : acc ≠ []) :
    List.eraseDups.loop l acc ≠ [] := by
  induction l generalizing acc with
  | nil =>
    unfold List.eraseDups.loop
    simpa using h
  | cons a as ih =>
    unfold List.eraseDups.loop
    cases he : List.elem a acc with
    | true =>
      simp only [he]
      exact ih h
    | false =>
      simp only [he]
      exact ih (by simp)

theorem eraseDups_ne_nil {l : List ℚ} (h : l ≠ []) : l.eraseDups ≠ [] := by
  cases l with
  | nil => exact absurd rfl h
  | cons a as =>
    show List.eraseDups.loop (a :: as) [] ≠ []
    unfold List.eraseDups.loop
    simp only [List.elem]
    exact eraseDups_loop_ne_nil (by simp)

theorem pivot_table_ne_nil {sd : List Reading} (h : sd ≠ []) :
    pivot_table sd ≠ [] := by
  unfold pivot_table
  intro he
  rw [List.map_eq_nil] at he
  exact eraseDups_ne_nil (sortBy_ne_nil _ (by simpa using h)) he

theorem isEmpty_false_of_ne_nil {α : Type} {l : List α} (h : l ≠ []) :
    l.isEmpty = false := by
  cases l with
  | nil => exact absurd rfl h
  | cons x xs => rfl

theorem filter_active_ne_nil {rows : List Reading} {stype : String}
    (h : sensorActive rows stype = true) :
    rows.filter (fun r => r.sensor_type == stype) ≠ [] := by
  obtain ⟨r, hr, hpred⟩ := List.any_eq_true.1 h
  exact List.ne_nil_of_mem (List.mem_filter.2 ⟨hr, hpred⟩)

/-- The statistic tags of the per-window loop. -/
def statTags : List String :=
  ["_mean_", "_std_", "_min_", "_max_", "_range_", "_q25_", "_q75_",
   "_iqr_", "_trend_", "_cv_"]

theorem hasCol_set_mono (fdf : FeaturesDF) (k : String) (sIdx : List ℚ)
    (vals : List (Option ℚ)) {n : String} (h : fdf.hasCol n = true) :
    (fdf.set k sIdx vals).hasCol n = true := by
  by_cases hn : n = k
  · subst hn
    exact hasCol_set_self fdf n sIdx vals
  · rw [hasCol_set_ne _ _ _ _ hn]
    exact h

theorem addWindowCols_absence (name : String) (pv : List (ℚ × ℚ))
    (fdf : FeaturesDF) (w target : String)
    (h : ∀ su ∈ statTags, target ≠ (name ++ su) ++ w)
    (habs : fdf.hasCol target = false) :
    (addWindowCols name pv fdf w).hasCol target = false := by
  unfold addWindowCols
  rw [hasCol_set_ne _ _ _ _ (h "_cv_" (by decide)),
      hasCol_set_ne _ _ _ _ (h "_trend_" (by decide)),
      hasCol_set_ne _ _ _ _ (h "_iqr_" (by decide)),
      hasCol_set_ne _ _ _ _ (h "_q75_" (by decide)),
      hasCol_set_ne _ _ _ _ (h "_q25_" (by decide)),
      hasCol_set_ne _ _ _ _ (h "_range_" (by decide)),
      hasCol_set_ne _ _ _ _ (h "_max_" (by decide)),
      hasCol_set_ne _ _ _ _ (h "_min_" (by decide)),
      hasCol_set_ne _ _ _ _ (h "_std_" (by decide)),
      hasCol_set_ne _ _ _ _ (h "_mean_" (by decide))]
  exact habs

theorem windows_foldl_absence (name : String) (pv : List (ℚ × ℚ))
    (windows : List String) (fdf : FeaturesDF) (target : String)
    (h : ∀ w ∈ windows, ∀ su ∈ statTags, target ≠ (name ++ su) ++ w)
    (habs : fdf.hasCol target = false) :
    (windows.foldl (addWindowCols name pv) fdf).hasCol target = false := by
  induction windows generalizing fdf with
  | nil => exact habs
  | cons w ws ih =>
    rw [List.foldl_cons]
    refine ih _ ?_ (addWindowCols_absence name pv fdf w target (h w (by simp)) habs)
    intro w2 hw2
    exact h w2 (by simp [hw2])

theorem addLagCols_absence (cfg : FeatureConfig) (name : String)
    (idx : List ℚ) (vals : List (Option ℚ)) (fdf : FeaturesDF)
    (target : String)
    (h : ∀ k : ℕ, target ≠ ((name ++ "_lag_") ++ toString k) ++ "h")
    (habs : fdf.hasCol target = false) :
    (addLagCols cfg name idx vals fdf).hasCol target = false := by
  unfold addLagCols
  generalize (List.range cfg.max_lag_hours).map (fun k => k + 1) = ks
  induction ks generalizing fdf with
  | nil => exact habs
  | cons k ks ih =>
    rw [List.foldl_cons]
    exact ih _ ((hasCol_set_ne _ _ _ _ (h k)).trans habs)

theorem addLagCols_mono (cfg : FeatureConfig) (name : String)
    (idx : List ℚ) (vals : List (Option ℚ)) (fdf : FeaturesDF)
    {n : String} (h : fdf.hasCol n = true) :
    (addLagCols cfg name idx vals fdf).hasCol n = true := by
  unfold addLagCols
  generalize (List.range cfg.max_lag_hours).map (fun k => k + 1) = ks
  induction ks generalizing fdf with
  | nil => exact h
  | cons k ks ih =>
    rw [List.foldl_cons]
    exact ih _ (hasCol_set_mono _ _ _ _ h)

theorem addAnomalyCols_absence (name : String) (pv : List (ℚ × ℚ))
    (fdf : FeaturesDF) (target : String)
    (h1 : target ≠ name ++ "_zscore") (h2 : target ≠ name ++ "_is_anomaly")
    (habs : fdf.hasCol target = false) :
    (addAnomalyCols name pv fdf).hasCol target = false := by
  unfold addAnomalyCols
  rw [hasCol_set_ne _ _ _ _ h2, hasCol_set_ne _ _ _ _ h1]
  exact habs

theorem addAnomalyCols_mono (name : String) (pv : List (ℚ × ℚ))
    (fdf : FeaturesDF) {n : String} (h : fdf.hasCol n = true) :
    (addAnomalyCols name pv fdf).hasCol n = true := by
  unfold addAnomalyCols
  exact hasCol_set_mono _ _ _ _ (hasCol_set_mono _ _ _ _ h)

/-- The unprefixed sensor-specific risk-flag column names. -/
def flagNames : List String :=
  ["temp_shock_risk", "thermal_stratification", "ph_stability",
   "ph_stress_low", "ph_stress_high", "oxygen_depletion_risk",
   "oxygen_critical", "oxygen_declining_trend"]

/-- The risk-flag stage only adds columns from `flagNames`, so the
absence of any other column is preserved through a successful call. -/
theorem sensorFlags_preserves_absence (stype name : String)
    (pv : List (ℚ × ℚ)) (fdf fdf2 : FeaturesDF) (target : String)
    (hok : sensorFlags stype name pv fdf = .ok fdf2)
    (hflag : ∀ n ∈ flagNames, target ≠ n)
    (habs : fdf.hasCol target = false) : fdf2.hasCol target = false := by
  unfold sensorFlags at hok
  simp only [] at hok
  split at hok
  · -- Temperature
    split at hok
    · exact absurd hok (by simp)
    · split at hok
      · exact absurd hok (by simp)
      · injection hok with h2
        subst h2
        rw [hasCol_set_ne _ _ _ _ (hflag "thermal_stratification" (by decide)),
            hasCol_set_ne _ _ _ _ (hflag "temp_shock_risk" (by decide))]
        exact habs
  · split at hok
    · -- pH
      split at hok
      · exact absurd hok (by simp)
      · injection hok with h2
        subst h2
        rw [hasCol_set_ne _ _ _ _ (hflag "ph_stress_high" (by decide)),
            hasCol_set_ne _ _ _ _ (hflag "ph_stress_low" (by decide)),
            hasCol_set_ne _ _ _ _ (hflag "ph_stability" (by decide))]
        exact habs
    · split at hok
      · -- DissolvedOxygen
        split at hok
        · exact absurd hok (by simp)
        · injection hok with h2
          subst h2
          rw [hasCol_set_ne _ _ _ _ (hflag "oxygen_declining_trend" (by decide)),
              hasCol_set_ne _ _ _ _ (hflag "oxygen_critical" (by decide)),
              hasCol_set_ne _ _ _ _ (hflag "oxygen_depletion_risk" (by decide))]
          exact habs
      · injection hok with h2
        subst h2
        exact habs

/-- A successful per-sensor step only adds columns prefixed with the
lowercased sensor name plus the fixed risk-flag names, so the absence of
any other column is preserved. -/
theorem processSensorType_preserves_absence (cfg : FeatureConfig)
    (rows : List Reading) (fdf fdf2 : FeaturesDF) (stype target : String)
    (hstep : processSensorType cfg rows fdf stype = .ok fdf2)
    (hpre : ∀ u, target ≠ lowerStr stype ++ u)
    (hflag : ∀ n ∈ flagNames, target ≠ n)
    (habs : fdf.hasCol target = false) : fdf2.hasCol target = false := by
  have hassoc : ∀ a b : String, target ≠ (lowerStr stype ++ a) ++ b := by
    intro a b
    rw [String.append_assoc]
    exact hpre (a ++ b)
  have hlagne : ∀ k : ℕ,
      target ≠ ((lowerStr stype ++ "_lag_") ++ toString k) ++ "h" := by
    intro k
    simp only [String.append_assoc]
    exact hpre _
  unfold processSensorType at hstep
  simp only [] at hstep
  split at hstep
  · injection hstep with h2
    subst h2
    exact habs
  · split at hstep
    · injection hstep with h2
      subst h2
      exact habs
    · split at hstep
      · exact absurd hstep (by simp)
      · refine sensorFlags_preserves_absence _ _ _ _ _ _ hstep hflag ?_
        apply addAnomalyCols_absence _ _ _ _ (hpre "_zscore") (hpre "_is_anomaly")
        split
        · apply addLagCols_absence _ _ _ _ _ _ hlagne
          rw [hasCol_set_ne _ _ _ _ (hpre "_acceleration"),
              hasCol_set_ne _ _ _ _ (hpre "_roc_6h"),
              hasCol_set_ne _ _ _ _ (hpre "_roc_3h"),
              hasCol_set_ne _ _ _ _ (hpre "_roc_1h")]
          exact windows_foldl_absence _ _ _ _ _
            (fun w _ su _ => hassoc su w) habs
        · rw [hasCol_set_ne _ _ _ _ (hpre "_acceleration"),
              hasCol_set_ne _ _ _ _ (hpre "_roc_6h"),
              hasCol_set_ne _ _ _ _ (hpre "_roc_3h"),
              hasCol_set_ne _ _ _ _ (hpre "_roc_1h")]
          exact windows_foldl_absence _ _ _ _ _
            (fun w _ su _ => hassoc su w) habs

/-- `temperature_std_3H` is never one of the per-window statistic columns
when `3H` is not among the configured windows. -/
theorem temp_std_window_ne (windows : List String)
    (hwin : "3H" ∉ windows) :
    ∀ w ∈ windows, ∀ su ∈ statTags,
      ("temperature_std_3H" : String) ≠ ("temperature" ++ su) ++ w := by
  intro w hw su hsu
  simp only [statTags] at hsu
  fin_cases hsu
  · exact Ne.symm (append_ne_target _ _ 12 'm' 's' (by decide) (by decide) (by decide) w)
  · intro h
    have h2 : (("temperature" : String) ++ "_std_") ++ "3H" =
        ("temperature" ++ "_std_") ++ w := by
      rw [show (("temperature" : String) ++ "_std_") ++ "3H" = "temperature_std_3H" from by decide]
      exact h
    rw [append_left_cancel_str h2] at hwin
    exact hwin hw
  · exact Ne.symm (append_ne_target _ _ 12 'm' 's' (by decide) (by decide) (by decide) w)
  · exact Ne.symm (append_ne_target _ _ 12 'm' 's' (by decide) (by decide) (by decide) w)
  · exact Ne.symm (append_ne_target _ _ 12 'r' 's' (by decide) (by decide) (by decide) w)
  · exact Ne.symm (append_ne_target _ _ 12 'q' 's' (by decide) (by decide) (by decide) w)
  · exact Ne.symm (append_ne_target _ _ 12 'q' 's' (by decide) (by decide) (by decide) w)
  · exact Ne.symm (append_ne_target _ _ 12 'i' 's' (by decide) (by decide) (by decide) w)
  · exact Ne.symm (append_ne_target _ _ 12 't' 's' (by decide) (by decide) (by decide) w)
  · exact Ne.symm (append_ne_target _ _ 12 'c' 's' (by decide) (by decide) (by decide) w)

/-- `ph_std_6H` is never one of the per-window statistic columns when `6H`
is not among the configured windows. -/
theorem ph_std_window_ne (windows : List String)
    (hwin : "6H" ∉ windows) :
    ∀ w ∈ windows, ∀ su ∈ statTags,
      ("ph_std_6H" : String) ≠ ("ph" ++ su) ++ w := by
  intro w hw su hsu
  simp only [statTags] at hsu
  fin_cases hsu
  · exact Ne.symm (append_ne_target _ _ 3 'm' 's' (by decide) (by decide) (by decide) w)
  · intro h
    have h2 : (("ph" : String) ++ "_std_") ++ "6H" =
        ("ph" ++ "_std_") ++ w := by
      rw [show (("ph" : String) ++ "_std_") ++ "6H" = "ph_std_6H" from by decide]
      exact h
    rw [append_left_cancel_str h2] at hwin
    exact hwin hw
  · exact Ne.symm (append_ne_target _ _ 3 'm' 's' (by decide) (by decide) (by decide) w)
  · exact Ne.symm (append_ne_target _ _ 3 'm' 's' (by decide) (by decide) (by decide) w)
  · exact Ne.symm (append_ne_target _ _ 3 'r' 's' (by decide) (by decide) (by decide) w)
  · exact Ne.symm (append_ne_target _ _ 3 'q' 's' (by decide) (by decide) (by decide) w)
  · exact Ne.symm (append_ne_target _ _ 3 'q' 's' (by decide) (by decide) (by decide) w)
  · exact Ne.symm (append_ne_target _ _ 3 'i' 's' (by decide) (by decide) (by decide) w)
  · exact Ne.symm (append_ne_target _ _ 3 't' 's' (by decide) (by decide) (by decide) w)
  · exact Ne.symm (append_ne_target _ _ 3 'c' 's' (by decide) (by decide) (by decide) w)

/-- `dissolvedoxygen_trend_3H` is never one of the per-window statistic
columns when `3H` is not among the configured windows. -/
theorem do_trend_window_ne (windows : List String)
    (hwin : "3H" ∉ windows) :
    ∀ w ∈ windows, ∀ su ∈ statTags,
      ("dissolvedoxygen_trend_3H" : String) ≠ ("dissolvedoxygen" ++ su) ++ w := by
  intro w hw su hsu
  simp only [statTags] at hsu
  fin_cases hsu
  · exact Ne.symm (append_ne_target _ _ 16 'm' 't' (by decide) (by decide) (by decide) w)
  · exact Ne.symm (append_ne_target _ _ 16 's' 't' (by decide) (by decide) (by decide) w)
  · exact Ne.symm (append_ne_target _ _ 16 'm' 't' (by decide) (by decide) (by decide) w)
  · exact Ne.symm (append_ne_target _ _ 16 'm' 't' (by decide) (by decide) (by decide) w)
  · exact Ne.symm (append_ne_target _ _ 16 'r' 't' (by decide) (by decide) (by decide) w)
  · exact Ne.symm (append_ne_target _ _ 16 'q' 't' (by decide) (by decide) (by decide) w)
  · exact Ne.symm (append_ne_target _ _ 16 'q' 't' (by decide) (by decide) (by decide) w)
  · exact Ne.symm (append_ne_target _ _ 16 'i' 't' (by decide) (by decide) (by decide) w)
  · intro h
    have h2 : (("dissolvedoxygen" : String) ++ "_trend_") ++ "3H" =
        ("dissolvedoxygen" ++ "_trend_") ++ w := by
      rw [show (("dissolvedoxygen" : String) ++ "_trend_") ++ "3H" = "dissolvedoxygen_trend_3H" from by decide]
      exact h
    rw [append_left_cancel_str h2] at hwin
    exact hwin hw
  · exact Ne.symm (append_ne_target _ _ 16 'c' 't' (by decide) (by decide) (by decide) w)

theorem temp_lag_ne (k : ℕ) :
    ("temperature_std_3H" : String) ≠
      (("temperature" ++ "_lag_") ++ toString k) ++ "h" := by
  rw [String.append_assoc]
  exact Ne.symm (append_ne_target ("temperature" ++ "_lag_") "temperature_std_3H"
    12 'l' 's' (by decide) (by decide) (by decide) _)

theorem ph_lag_ne (k : ℕ) :
    ("ph_std_6H" : String) ≠ (("ph" ++ "_lag_") ++ toString k) ++ "h" := by
  rw [String.append_assoc]
  exact Ne.symm (append_ne_target ("ph" ++ "_lag_") "ph_std_6H"
    3 'l' 's' (by decide) (by decide) (by decide) _)

theorem do_lag_ne (k : ℕ) :
    ("dissolvedoxygen_trend_3H" : String) ≠
      (("dissolvedoxygen" ++ "_lag_") ++ toString k) ++ "h" := by
  rw [String.append_assoc]
  exact Ne.symm (append_ne_target ("dissolvedoxygen" ++ "_lag_") "dissolvedoxygen_trend_3H"
    16 'l' 't' (by decide) (by decide) (by decide) _)

/-- Columns written by the loop body for a different sensor type never
collide with `temperature_std_3H`. -/
theorem temp_other_ne (s : String)
    (hs : s ∈ ["Temperature", "pH", "DissolvedOxygen", "Salinity"])
    (hne : s ≠ "Temperature") (u : String) :
    ("temperature_std_3H" : String) ≠ lowerStr s ++ u := by
  fin_cases hs
  · exact absurd rfl hne
  · exact Ne.symm (append_ne_target _ _ 0 'p' 't' (by decide) (by decide) (by decide) u)
  · exact Ne.symm (append_ne_target _ _ 0 'd' 't' (by decide) (by decide) (by decide) u)
  · exact Ne.symm (append_ne_target _ _ 0 's' 't' (by decide) (by decide) (by decide) u)

/-- Columns written by the loop body for a different sensor type never
collide with `ph_std_6H`. -/
theorem ph_other_ne (s : String)
    (hs : s ∈ ["Temperature", "pH", "DissolvedOxygen", "Salinity"])
    (hne : s ≠ "pH") (u : String) :
    ("ph_std_6H" : String) ≠ lowerStr s ++ u := by
  fin_cases hs
  · exact Ne.symm (append_ne_target _ _ 0 't' 'p' (by decide) (by decide) (by decide) u)
  · exact absurd rfl hne
  · exact Ne.symm (append_ne_target _ _ 0 'd' 'p' (by decide) (by decide) (by decide) u)
  · exact Ne.symm (append_ne_target _ _ 0 's' 'p' (by decide) (by decide) (by decide) u)

/-- Columns written by the loop body for a different sensor type never
collide with `dissolvedoxygen_trend_3H`. -/
theorem do_other_ne (s : String)
    (hs : s ∈ ["Temperature", "pH", "DissolvedOxygen", "Salinity"])
    (hne : s ≠ "DissolvedOxygen") (u : String) :
    ("dissolvedoxygen_trend_3H" : String) ≠ lowerStr s ++ u := by
  fin_cases hs
  · exact Ne.symm (append_ne_target _ _ 0 't' 'd' (by decide) (by decide) (by decide) u)
  · exact Ne.symm (append_ne_target _ _ 0 'p' 'd' (by decide) (by decide) (by decide) u)
  · exact absurd rfl hne
  · exact Ne.symm (append_ne_target _ _ 0 's' 'd' (by decide) (by decide) (by decide) u)

/-- `thermal_stratification` reads the hard-coded `temperature_std_3H`
column: when it is absent the Temperature flag stage cannot succeed. -/
theorem sensorFlags_temp_no_std3H (pv : List (ℚ × ℚ)) (F f : FeaturesDF)
    (habsF : F.hasCol "temperature_std_3H" = false)
    (hres : sensorFlags "Temperature" "temperature" pv F = .ok f) : False := by
  unfold sensorFlags at hres
  simp only [] at hres
  rw [if_pos (show (("Temperature" : String) == "Temperature") = true from by decide)] at hres
  split at hres
  · exact absurd hres (by simp)
  · rw [show ("temperature" : String) ++ "_std_3H" = "temperature_std_3H" from by decide] at hres
    rw [get_error_of_not_hasCol] at hres
    · exact absurd hres (by simp)
    · rw [hasCol_set_ne _ _ _ _
        (show ("temperature_std_3H" : String) ≠ "temp_shock_risk" from by decide)]
      exact habsF

/-- `ph_stability` reads the hard-coded `ph_std_6H` column: when it is
absent the pH flag stage cannot succeed. -/
theorem sensorFlags_ph_no_std6H (pv : List (ℚ × ℚ)) (F f : FeaturesDF)
    (habsF : F.hasCol "ph_std_6H" = false)
    (hres : sensorFlags "pH" "ph" pv F = .ok f) : False := by
  unfold sensorFlags at hres
  simp only [] at hres
  rw [if_neg (show ¬((("pH" : String) == "Temperature") = true) from by decide),
      if_pos (show (("pH" : String) == "pH") = true from by decide)] at hres
  rw [show ("ph" : String) ++ "_std_6H" = "ph_std_6H" from by decide] at hres
  rw [get_error_of_not_hasCol] at hres
  · exact absurd hres (by simp)
  · exact habsF

/-- `oxygen_declining_trend` reads the hard-coded
`dissolvedoxygen_trend_3H` column: when it is absent the
dissolved-oxygen flag stage cannot succeed. -/
theorem sensorFlags_do_no_trend3H (pv : List (ℚ × ℚ)) (F f : FeaturesDF)
    (habsF : F.hasCol "dissolvedoxygen_trend_3H" = false)
    (hres : sensorFlags "DissolvedOxygen" "dissolvedoxygen" pv F = .ok f) :
    False := by
  unfold sensorFlags at hres
  simp only [] at hres
  rw [if_neg (show ¬((("DissolvedOxygen" : String) == "Temperature") = true) from by decide),
      if_neg (show ¬((("DissolvedOxygen" : String) == "pH") = true) from by decide),
      if_pos (show (("DissolvedOxygen" : String) == "DissolvedOxygen") = true from by decide)] at hres
  rw [show ("dissolvedoxygen" : String) ++ "_trend_3H" = "dissolvedoxygen_trend_3H" from by decide] at hres
  rw [get_error_of_not_hasCol] at hres
  · exact absurd hres (by simp)
  · rw [hasCol_set_ne _ _ _ _
        (show ("dissolvedoxygen_trend_3H" : String) ≠ "oxygen_critical" from by decide),
        hasCol_set_ne _ _ _ _
        (show ("dissolvedoxygen_trend_3H" : String) ≠ "oxygen_depletion_risk" from by decide)]
    exact habsF

/-- With Temperature data present and `3H` not configured, the
Temperature step raises (the `temperature_std_3H` lookup fails). -/
theorem processSensorType_temp_errors (cfg : FeatureConfig)
    (rows : List Reading) (fdf : FeaturesDF)
    (hdata : (rows.filter (fun r => r.sensor_type == "Temperature")).isEmpty = false)
    (hwin : "3H" ∉ cfg.aggregation_windows)
    (habs : fdf.hasCol "temperature_std_3H" = false) :
    ∃ e, processSensorType cfg rows fdf "Temperature" = .error e := by
  have hname : lowerStr "Temperature" = "temperature" := by decide
  have hsd : rows.filter (fun r => r.sensor_type == "Temperature") ≠ [] := by
    intro he
    rw [he] at hdata
    exact absurd hdata (by decide)
  have hpv : (pivot_table (rows.filter (fun r => r.sensor_type == "Temperature"))).isEmpty
      = false := isEmpty_false_of_ne_nil (pivot_table_ne_nil hsd)
  cases hres : processSensorType cfg rows fdf "Temperature" with
  | error e => exact ⟨e, rfl⟩
  | ok f =>
    exfalso
    unfold processSensorType at hres
    simp only [hname] at hres
    rw [if_neg (show ¬((rows.filter (fun r => r.sensor_type == "Temperature")).isEmpty = true)
          from by rw [hdata]; decide),
        if_neg (show ¬((pivot_table (rows.filter (fun r => r.sensor_type == "Temperature"))).isEmpty = true)
          from by rw [hpv]; decide)] at hres
    split at hres
    · exact absurd hres (by simp)
    · refine sensorFlags_temp_no_std3H _ _ _ ?_ hres
      apply addAnomalyCols_absence _ _ _ _
        (show ("temperature_std_3H" : String) ≠ "temperature" ++ "_zscore" from by decide)
        (show ("temperature_std_3H" : String) ≠ "temperature" ++ "_is_anomaly" from by decide)
      split
      · apply addLagCols_absence _ _ _ _ _ _ temp_lag_ne
        rw [hasCol_set_ne _ _ _ _
              (show ("temperature_std_3H" : String) ≠ "temperature" ++ "_acceleration" from by decide),
            hasCol_set_ne _ _ _ _
              (show ("temperature_std_3H" : String) ≠ "temperature" ++ "_roc_6h" from by decide),
            hasCol_set_ne _ _ _ _
              (show ("temperature_std_3H" : String) ≠ "temperature" ++ "_roc_3h" from by decide),
            hasCol_set_ne _ _ _ _
              (show ("temperature_std_3H" : String) ≠ "temperature" ++ "_roc_1h" from by decide)]
        exact windows_foldl_absence _ _ _ _ _ (temp_std_window_ne _ hwin) habs
      · rw [hasCol_set_ne _ _ _ _
              (show ("temperature_std_3H" : String) ≠ "temperature" ++ "_acceleration" from by decide),
            hasCol_set_ne _ _ _ _
              (show ("temperature_std_3H" : String) ≠ "temperature" ++ "_roc_6h" from by decide),
            hasCol_set_ne _ _ _ _
              (show ("temperature_std_3H" : String) ≠ "temperature" ++ "_roc_3h" from by decide),
            hasCol_set_ne _ _ _ _
              (show ("temperature_std_3H" : String) ≠ "temperature" ++ "_roc_1h" from by decide)]
        exact windows_foldl_absence _ _ _ _ _ (temp_std_window_ne _ hwin) habs

/-- With pH data present and `6H` not configured, the pH step raises
(the `ph_std_6H` lookup fails). -/
theorem processSensorType_ph_errors (cfg : FeatureConfig)
    (rows : List Reading) (fdf : FeaturesDF)
    (hdata : (rows.filter (fun r => r.sensor_type == "pH")).isEmpty = false)
    (hwin : "6H" ∉ cfg.aggregation_windows)
    (habs : fdf.hasCol "ph_std_6H" = false) :
    ∃ e, processSensorType cfg rows fdf "pH" = .error e := by
  have hname : lowerStr "pH" = "ph" := by decide
  have hsd : rows.filter (fun r => r.sensor_type == "pH") ≠ [] := by
    intro he
    rw [he] at hdata
    exact absurd hdata (by decide)
  have hpv : (pivot_table (rows.filter (fun r => r.sensor_type == "pH"))).isEmpty
      = false := isEmpty_false_of_ne_nil (pivot_table_ne_nil hsd)
  cases hres : processSensorType cfg rows fdf "pH" with
  | error e => exact ⟨e, rfl⟩
  | ok f =>
    exfalso
    unfold processSensorType at hres
    simp only [hname] at hres
    rw [if_neg (show ¬((rows.filter (fun r => r.sensor_type == "pH")).isEmpty = true)
          from by rw [hdata]; decide),
        if_neg (show ¬((pivot_table (rows.filter (fun r => r.sensor_type == "pH"))).isEmpty = true)
          from by rw [hpv]; decide)] at hres
    split at hres
    · exact absurd hres (by simp)
    · refine sensorFlags_ph_no_std6H _ _ _ ?_ hres
      apply addAnomalyCols_absence _ _ _ _
        (show ("ph_std_6H" : String) ≠ "ph" ++ "_zscore" from by decide)
        (show ("ph_std_6H" : String) ≠ "ph" ++ "_is_anomaly" from by decide)
      split
      · apply addLagCols_absence _ _ _ _ _ _ ph_lag_ne
        rw [hasCol_set_ne _ _ _ _
              (show ("ph_std_6H" : String) ≠ "ph" ++ "_acceleration" from by decide),
            hasCol_set_ne _ _ _ _
              (show ("ph_std_6H" : String) ≠ "ph" ++ "_roc_6h" from by decide),
            hasCol_set_ne _ _ _ _
              (show ("ph_std_6H" : String) ≠ "ph" ++ "_roc_3h" from by decide),
            hasCol_set_ne _ _ _ _
              (show ("ph_std_6H" : String) ≠ "ph" ++ "_roc_1h" from by decide)]
        exact windows_foldl_absence _ _ _ _ _ (ph_std_window_ne _ hwin) habs
      · rw [hasCol_set_ne _ _ _ _
              (show ("ph_std_6H" : String) ≠ "ph" ++ "_acceleration" from by decide),
            hasCol_set_ne _ _ _ _
              (show ("ph_std_6H" : String) ≠ "ph" ++ "_roc_6h" from by decide),
            hasCol_set_ne _ _ _ _
              (show ("ph_std_6H" : String) ≠ "ph" ++ "_roc_3h" from by decide),
            hasCol_set_ne _ _ _ _
              (show ("ph_std_6H" : String) ≠ "ph" ++ "_roc_1h" from by decide)]
        exact windows_foldl_absence _ _ _ _ _ (ph_std_window_ne _ hwin) habs

/-- With dissolved-oxygen data present and `3H` not configured, the
DissolvedOxygen step raises (the `dissolvedoxygen_trend_3H` lookup
fails). -/
theorem processSensorType_do_errors (cfg : FeatureConfig)
    (rows : List Reading) (fdf : FeaturesDF)
    (hdata : (rows.filter (fun r => r.sensor_type == "DissolvedOxygen")).isEmpty = false)
    (hwin : "3H" ∉ cfg.aggregation_windows)
    (habs : fdf.hasCol "dissolvedoxygen_trend_3H" = false) :
    ∃ e, processSensorType cfg rows fdf "DissolvedOxygen" = .error e := by
  have hname : lowerStr "DissolvedOxygen" = "dissolvedoxygen" := by decide
  have hsd : rows.filter (fun r => r.sensor_type == "DissolvedOxygen") ≠ [] := by
    intro he
    rw [he] at hdata
    exact absurd hdata (by decide)
  have hpv : (pivot_table (rows.filter (fun r => r.sensor_type == "DissolvedOxygen"))).isEmpty
      = false := isEmpty_false_of_ne_nil (pivot_table_ne_nil hsd)
  cases hres : processSensorType cfg rows fdf "DissolvedOxygen" with
  | error e => exact ⟨e, rfl⟩
  | ok f =>
    exfalso
    unfold processSensorType at hres
    simp only [hname] at hres
    rw [if_neg (show ¬((rows.filter (fun r => r.sensor_type == "DissolvedOxygen")).isEmpty = true)
          from by rw [hdata]; decide),
        if_neg (show ¬((pivot_table (rows.filter (fun r => r.sensor_type == "DissolvedOxygen"))).isEmpty = true)
          from by rw [hpv]; decide)] at hres
    split at hres
    · exact absurd hres (by simp)
    · refine sensorFlags_do_no_trend3H _ _ _ ?_ hres
      apply addAnomalyCols_absence _ _ _ _
        (show ("dissolvedoxygen_trend_3H" : String) ≠ "dissolvedoxygen" ++ "_zscore" from by decide)
        (show ("dissolvedoxygen_trend_3H" : String) ≠ "dissolvedoxygen" ++ "_is_anomaly" from by decide)
      split
      · apply addLagCols_absence _ _ _ _ _ _ do_lag_ne
        rw [hasCol_set_ne _ _ _ _
              (show ("dissolvedoxygen_trend_3H" : String) ≠ "dissolvedoxygen" ++ "_acceleration" from by decide),
            hasCol_set_ne _ _ _ _
              (show ("dissolvedoxygen_trend_3H" : String) ≠ "dissolvedoxygen" ++ "_roc_6h" from by decide),
            hasCol_set_ne _ _ _ _
              (show ("dissolvedoxygen_trend_3H" : String) ≠ "dissolvedoxygen" ++ "_roc_3h" from by decide),
            hasCol_set_ne _ _ _ _
              (show ("dissolvedoxygen_trend_3H" : String) ≠ "dissolvedoxygen" ++ "_roc_1h" from by decide)]
        exact windows_foldl_absence _ _ _ _ _ (do_trend_window_ne _ hwin) habs
      · rw [hasCol_set_ne _ _ _ _
              (show ("dissolvedoxygen_trend_3H" : String) ≠ "dissolvedoxygen" ++ "_acceleration" from by decide),
            hasCol_set_ne _ _ _ _
              (show ("dissolvedoxygen_trend_3H" : String) ≠ "dissolvedoxygen" ++ "_roc_6h" from by decide),
            hasCol_set_ne _ _ _ _
              (show ("dissolvedoxygen_trend_3H" : String) ≠ "dissolvedoxygen" ++ "_roc_3h" from by decide),
            hasCol_set_ne _ _ _ _
              (show ("dissolvedoxygen_trend_3H" : String) ≠ "dissolvedoxygen" ++ "_roc_1h" from by decide)]
        exact windows_foldl_absence _ _ _ _ _ (do_trend_window_ne _ hwin) habs

/-- If some configured type `t` always raises on frames missing `target`
and the other configured types never create `target`, the whole
sequential loop raises. -/
theorem processAll_error_of_trigger (cfg : FeatureConfig) (rows : List Reading)
    (target t : String) (types : List String) (fdf : FeaturesDF)
    (hmem : t ∈ types)
    (htrig : ∀ f : FeaturesDF, f.hasCol target = false →
      ∃ e, processSensorType cfg rows f t = .error e)
    (hother : ∀ s ∈ types, s ≠ t → ∀ u, target ≠ lowerStr s ++ u)
    (hflag : ∀ n ∈ flagNames, target ≠ n)
    (habs : fdf.hasCol target = false) :
    ∃ e, processAll cfg rows types fdf = .error e := by
  induction types generalizing fdf with
  | nil => cases hmem
  | cons s rest ih =>
    by_cases hst : s = t
    · subst hst
      obtain ⟨e, he⟩ := htrig fdf habs
      refine ⟨e, ?_⟩
      simp only [processAll]
      rw [he]
    · cases hs : processSensorType cfg rows fdf s with
      | error e =>
        refine ⟨e, ?_⟩
        simp only [processAll]
        rw [hs]
      | ok fdf2 =>
        have habs2 := processSensorType_preserves_absence cfg rows fdf fdf2 s target hs
          (hother s (List.mem_cons_self s rest) hst) hflag habs
        have hmem2 : t ∈ rest := by
          cases List.mem_cons.1 hmem with
          | inl h => exact absurd h.symm hst
          | inr h => exact h
        obtain ⟨e, he⟩ := ih fdf2 hmem2
          (fun s2 hs2 => hother s2 (List.mem_cons_of_mem s hs2)) habs2
        refine ⟨e, ?_⟩
        simp only [processAll]
        rw [hs]
        exact he

/-- C10: the sensor-specific risk flags read the hard-coded columns
`temperature_std_3H`, `ph_std_6H` and `dissolvedoxygen_trend_3H`
regardless of the configured aggregation windows, so whenever a
configured sensor type with data present lacks its required window
(`3H` for Temperature and DissolvedOxygen, `6H` for pH) the whole
`create_sensor_features` call raises a `KeyError` instead of
returning a table. -/
theorem risk_flags_require_fixed_windows (cfg : FeatureConfig)
    (rows : List Reading)
    (hsub : ∀ s ∈ cfg.sensor_types,
      s ∈ ["Temperature", "pH", "DissolvedOxygen", "Salinity"])
    (htrig :
      ("Temperature" ∈ cfg.sensor_types ∧
        (rows.filter (fun r => r.sensor_type == "Temperature")).isEmpty = false ∧
        "3H" ∉ cfg.aggregation_windows) ∨
      ("pH" ∈ cfg.sensor_types ∧
        (rows.filter (fun r => r.sensor_type == "pH")).isEmpty = false ∧
        "6H" ∉ cfg.aggregation_windows) ∨
      ("DissolvedOxygen" ∈ cfg.sensor_types ∧
        (rows.filter (fun r => r.sensor_type == "DissolvedOxygen")).isEmpty = false ∧
        "3H" ∉ cfg.aggregation_windows)) :
    ∃ e, create_sensor_features cfg rows = .error e := by
  have hmain : ∃ e, processAll cfg rows cfg.sensor_types FeaturesDF.empty = .error e := by
    rcases htrig with ⟨hmem, hdata, hwin⟩ | ⟨hmem, hdata, hwin⟩ | ⟨hmem, hdata, hwin⟩
    · exact processAll_error_of_trigger cfg rows "temperature_std_3H" "Temperature"
        cfg.sensor_types FeaturesDF.empty hmem
        (fun f hf => processSensorType_temp_errors cfg rows f hdata hwin hf)
        (fun s hs hne => temp_other_ne s (hsub s hs) hne)
        (by decide) (by decide)
    · exact processAll_error_of_trigger cfg rows "ph_std_6H" "pH"
        cfg.sensor_types FeaturesDF.empty hmem
        (fun f hf => processSensorType_ph_errors cfg rows f hdata hwin hf)
        (fun s hs hne => ph_other_ne s (hsub s hs) hne)
        (by decide) (by decide)
    · exact processAll_error_of_trigger cfg rows "dissolvedoxygen_trend_3H" "DissolvedOxygen"
        cfg.sensor_types FeaturesDF.empty hmem
        (fun f hf => processSensorType_do_errors cfg rows f hdata hwin hf)
        (fun s hs hne => do_other_ne s (hsub s hs) hne)
        (by decide) (by decide)
  obtain ⟨e, he⟩ := hmain
  refine ⟨e, ?_⟩
  unfold create_sensor_features
  rw [he]

/-- Witness: 13 Temperature readings with only the `1H` window
configured make the pipeline raise. -/
theorem risk_flags_require_fixed_windows_witness :
    ∃ e, create_sensor_features
      { cfg6 with aggregation_windows := ["1H"] } rows13 = .error e :=
  risk_flags_require_fixed_windows _ rows13 (by decide)
    (Or.inl ⟨by decide, by decide, by decide⟩)

end Aqua
